import Mathlib

/-!
Verification of the iso19794 container codec (ISO/IEC 19794 face and finger
image interchange formats, modules FIR.py and FAC.py) against its
natural-language specification.

The two Python modules are shallowly embedded: byte streams are lists of
natural numbers below 256, Python exceptions become an inspectable error
type threaded through `Except`, and the stateful Pillow frame navigator
becomes explicit state passing.  Every definition mirrors one function or
table of the source; theorems at the end settle the specification claims.
-/

namespace ISO19794

/-- A wire byte, modelled as a natural number.  All packing functions only
emit values below 256. -/
abbrev Byte := Nat

/-- The Python exceptions the codec can raise, as inspectable error values:
`badFormat` is SyntaxError, `keyErr` a dict KeyError, `attrErr` an
AttributeError, `structErr` an error from the struct module, `eofErr` an
EOFError, `indexErr` a list IndexError, `valueErr` a ValueError from the
datetime constructor, `typeErr` a TypeError. -/
inductive PyErr where
  | badFormat (msg : String)
  | keyErr (msg : String)
  | attrErr (msg : String)
  | structErr (msg : String)
  | eofErr (msg : String)
  | indexErr (msg : String)
  | valueErr (msg : String)
  | typeErr (msg : String)
  | nameErr (msg : String)
  deriving DecidableEq, Repr

/-! ### struct packing (big endian), with the range checks struct performs -/

/-- Big-endian byte split of an unsigned 16-bit value. -/
def u16be (n : Nat) : List Byte := [n / 256 % 256, n % 256]

/-- Big-endian byte split of an unsigned 32-bit value. -/
def u32be (n : Nat) : List Byte :=
  [n / 16777216 % 256, n / 65536 % 256, n / 256 % 256, n % 256]

/-- struct format `B`: one unsigned byte, range checked. -/
def packU8 (n : Nat) : Except PyErr (List Byte) :=
  if n < 256 then .ok [n]
  else .error (.structErr "ubyte format requires 0 <= number <= 255")

/-- struct format `H`: big-endian unsigned 16-bit, range checked. -/
def packU16 (n : Nat) : Except PyErr (List Byte) :=
  if n < 65536 then .ok (u16be n)
  else .error (.structErr "ushort format requires 0 <= number <= 65535")

/-- struct format `I`: big-endian unsigned 32-bit, range checked. -/
def packU32 (n : Nat) : Except PyErr (List Byte) :=
  if n < 4294967296 then .ok (u32be n)
  else .error (.structErr "uint format requires 0 <= number <= 4294967295")

/-- struct format `b`: one signed byte in two's complement, range checked. -/
def packI8 (i : Int) : Except PyErr (List Byte) :=
  if -128 ≤ i ∧ i < 128 then .ok [(i % 256).toNat]
  else .error (.structErr "byte format requires -128 <= number <= 127")

/-- struct format `?`: one byte, 1 for True and 0 for False. -/
def packBool (b : Bool) : List Byte := [if b then 1 else 0]

/-- struct format `ns`: a byte string padded with NULs or truncated to width
`w` (struct never fails on the length of an `s` argument). -/
def packBytes (w : Nat) (bs : List Byte) : List Byte :=
  bs.take w ++ List.replicate (w - bs.length) 0

/-! ### reading from a byte stream

A stream is the list of bytes from the current file position onward; each
reader returns the value together with the unconsumed tail.  Reading past
the end is the struct unpack error on a short buffer. -/

/-- Big-endian value of a byte list. -/
def beVal (bs : List Byte) : Nat := bs.foldl (fun a b => a * 256 + b) 0

/-- Consume exactly `n` bytes. -/
def rdTake (n : Nat) (bs : List Byte) : Except PyErr (List Byte × List Byte) :=
  if n ≤ bs.length then .ok (bs.take n, bs.drop n)
  else .error (.structErr "unpack requires a buffer with more bytes")

/-- Read one unsigned byte. -/
def rdU8 (bs : List Byte) : Except PyErr (Nat × List Byte) := do
  let (v, rest) ← rdTake 1 bs
  return (beVal v, rest)

/-- Read a big-endian unsigned 16-bit value. -/
def rdU16 (bs : List Byte) : Except PyErr (Nat × List Byte) := do
  let (v, rest) ← rdTake 2 bs
  return (beVal v, rest)

/-- Read a big-endian unsigned 32-bit value. -/
def rdU32 (bs : List Byte) : Except PyErr (Nat × List Byte) := do
  let (v, rest) ← rdTake 4 bs
  return (beVal v, rest)

/-- Interpret one byte as a signed value (struct format `b`). -/
def i8val (b : Nat) : Int := if b < 128 then (b : Int) else (b : Int) - 256

/-- Read one signed byte. -/
def rdI8 (bs : List Byte) : Except PyErr (Int × List Byte) := do
  let (v, rest) ← rdTake 1 bs
  return (i8val (beVal v), rest)

/-- Read a count-many list of fixed-layout records with the given reader. -/
def rdList (rd : List Byte → Except PyErr (α × List Byte)) :
    Nat → List Byte → Except PyErr (List α × List Byte)
  | 0, bs => .ok ([], bs)
  | n + 1, bs => do
    let (x, bs) ← rd bs
    let (xs, bs) ← rdList rd n bs
    return (x :: xs, bs)

/-! ### Python datetime -/

/-- The fields of a `datetime.datetime` value. -/
structure PyDatetime where
  year : Nat
  month : Nat
  day : Nat
  hour : Nat
  minute : Nat
  second : Nat
  microsecond : Nat
  deriving DecidableEq, Repr

/-- Days in a month, with the Gregorian leap rule, as the datetime module
checks the `day` argument. -/
def daysInMonth (y m : Nat) : Nat :=
  if m = 2 then
    if y % 4 = 0 ∧ (y % 100 ≠ 0 ∨ y % 400 = 0) then 29 else 28
  else if m = 4 ∨ m = 6 ∨ m = 9 ∨ m = 11 then 30
  else 31

/-- The argument checks of the `datetime.datetime` constructor. -/
def PyDatetime.valid (d : PyDatetime) : Bool :=
  1 ≤ d.year && d.year ≤ 9999 && 1 ≤ d.month && d.month ≤ 12 &&
  1 ≤ d.day && d.day ≤ daysInMonth d.year d.month &&
  d.hour < 24 && d.minute < 60 && d.second < 60 && d.microsecond < 1000000

/-- The `datetime.datetime` constructor: builds the value or raises
ValueError. -/
def mkDatetime (y mo d h mi s us : Nat) : Except PyErr PyDatetime :=
  let dt : PyDatetime := ⟨y, mo, d, h, mi, s, us⟩
  if dt.valid then .ok dt else .error (.valueErr "argument out of range")

/-! ### Python dict lookups

The enumeration tables are Python dicts with string keys; decoding uses the
inverted dict built by a comprehension, in which a later entry overwrites an
earlier one with the same value. -/

/-- Forward dict lookup `TABLE[key]`, as an Option (the caller turns a miss
into a KeyError). -/
def dictGet [BEq κ] (t : List (κ × α)) (k : κ) : Option α :=
  (t.find? (fun kv => kv.1 == k)).map (·.2)

/-- Forward dict lookup raising KeyError on a miss, as a dict subscript. -/
def pyGet [BEq κ] (t : List (κ × α)) (k : κ) : Except PyErr α :=
  match dictGet t k with
  | some v => .ok v
  | none => .error (.keyErr "key not in table")

/-- Inverted dict lookup: build the value-to-key dict by comprehension (last
entry with a value wins) and look the code up. -/
def invLookup [BEq α] (t : List (String × α)) (c : α) : Option String :=
  (t.reverse.find? (fun kv => kv.2 == c)).map (·.1)

/-! ### FIR.py: enumeration tables (Tables 6 to 10 of ISO 19794-4) -/

/-- Conversion of position (FIR.py Tables 6, 7 and 8). -/
def POSITION : List (String × Nat) := [
  ("Unknown", 0),
  ("Right thumb", 1),
  ("Right index finger", 2),
  ("Right middle finger", 3),
  ("Right ring finger", 4),
  ("Right little finger", 5),
  ("Left thumb", 6),
  ("Left index finger", 7),
  ("Left middle finger", 8),
  ("Left ring finger", 9),
  ("Left little finger", 10),
  ("Plain right four fingers", 13),
  ("Plain left four fingers", 14),
  ("Plain thumbs (2)", 15),
  ("Right index and middle", 40),
  ("Right middle and ring", 41),
  ("Right ring and little", 42),
  ("Left index and middle", 43),
  ("Left middle and ring", 44),
  ("Left ring and little", 45),
  ("Right index and Left index", 46),
  ("Right index and middle and ring", 47),
  ("Right middle and ring and little", 48),
  ("Left index and middle and ring", 49),
  ("Left middle and ring and little", 50),
  ("Unknown palm", 20),
  ("Right full palm", 21),
  ("Right writer\x27s palm", 22),
  ("Left full palm", 23),
  ("Left writer\x27s palm", 24),
  ("Right lower palm", 25),
  ("Right upper palm", 26),
  ("Left lower palm", 27),
  ("Left upper palm", 28),
  ("Right other", 29),
  ("Left other", 30),
  ("Right interdigital", 31),
  ("Right thenar", 32),
  ("Right hypothenar", 33),
  ("Left interdigital", 34),
  ("Left thenar", 35),
  ("Left hypothenar", 36)]

/-- Conversion of compression (FIR.py Table 9). -/
def COMPRESSION : List (String × Nat) := [
  ("RAW", 0),
  ("RAW_PACKED", 1),
  ("WSQ", 2),
  ("JPEG", 3),
  ("JPEG2000_LOSSY", 4),
  ("JPEG2000_LOSSLESS", 5),
  ("PNG", 6)]

/-- Conversion of impression type (FIR.py Table 10). -/
def IMPRESSION : List (String × Nat) := [
  ("Live-scan plain", 0),
  ("Live-scan rolled", 1),
  ("Nonlive-scan plain", 2),
  ("Nonlive-scan rolled", 3),
  ("Latent impression", 4),
  ("Latent tracing", 5),
  ("Latent photo", 6),
  ("Latent lift", 7),
  ("Live-scan swipe", 8),
  ("Live-scan vertical roll", 9),
  ("Live-scan palm", 10),
  ("Nonlive-scan palm", 11),
  ("Latent palm impression", 12),
  ("Latent palm tracing", 13),
  ("Latent palm photo", 14),
  ("Latent palm lift", 15),
  ("Live-scan optical contactless plain", 24),
  ("Other", 28),
  ("Unknown", 29)]

/-- Conversion of units (FIR.py Table 2). -/
def UNIT : List (String × Nat) := [("PPI", 1), ("PPCM", 2)]

/-! ### FIR.py: record types -/

/-- A value that a caller may supply either as a raw integer or as a
symbolic name (the encoder tests `type(x) is int`). -/
inductive PyIntStr where
  | int (n : Nat)
  | str (s : String)
  deriving DecidableEq, Repr

/-- FIRQualityRecord: score, algorithm vendor id (2 bytes), algorithm id
(2 bytes). -/
structure FIRQualityRecord where
  score : Nat
  algo_vendor_id : List Byte
  algo_id : List Byte
  deriving DecidableEq, Repr

/-- FIRCertificationRecord: authority id (2 bytes), scheme id (1 byte). -/
structure FIRCertificationRecord where
  authority_id : List Byte
  scheme_id : List Byte
  deriving DecidableEq, Repr

/-- FIRRepresentationHeader (FIR.py Table 2 namedtuple). -/
structure FIRRepresentationHeader where
  length : Nat
  capture_datetime : PyDatetime
  capture_device_technology_id : List Byte
  capture_device_vendor_id : List Byte
  capture_device_type_id : List Byte
  quality_records : List FIRQualityRecord
  certification_records : List FIRCertificationRecord
  position : PyIntStr
  number : Nat
  scale_units : PyIntStr
  horizontal_scan_sampling_rate : Nat
  vertical_scan_sampling_rate : Nat
  horizontal_image_sampling_rate : Nat
  vertical_image_sampling_rate : Nat
  image_compression_algo : PyIntStr
  impression_type : PyIntStr
  deriving DecidableEq, Repr

/-- FIRHeader (FIR.py Table 1 namedtuple): the general header fields. -/
structure FIRHeader where
  version : List Byte
  length : Nat
  nb_repr : Nat
  cert_flag : Bool
  nb_pos : Nat
  deriving DecidableEq, Repr

/-! ### FIR.py: the frame encoder `_save_frame` -/

/-- The slice of a Pillow image that the FIR encoder consumes: pixel mode,
size, the representation header the caller attached, the raw pixel bytes
(what the raw codec emits for this image), and the output of the external
compression collaborators (WSQ/JPEG/JPEG2000), which the container codec
treats as an opaque byte producer (spec section 6). -/
structure FIRImage where
  mode : String
  width : Nat
  height : Nat
  pixels : List Byte
  compressed : List Byte
  header : FIRRepresentationHeader
  deriving DecidableEq, Repr

/-- The encoder-selection chain at the top of FIR._save_frame: produces the
bit depth and the image data bytes, or fails.  A raw integer compression
value matches none of the string comparisons and reaches the final branch,
where Python raises while concatenating the message (TypeError). -/
def firEncodeImageData (im : FIRImage) : Except PyErr (Nat × List Byte) :=
  let base := if im.mode == "L" then 8 else 24
  match im.header.image_compression_algo with
  | .str "RAW" => .ok (8, im.pixels)
  | .str "RAW_PACKED" => .ok (8, im.pixels)
  | .str "WSQ" => .ok (8, im.compressed)
  | .str "JPEG" => .ok (base, im.compressed)
  | .str "JPEG2000_LOSSY" => .ok (base, im.compressed)
  | .str "JPEG2000_LOSSLESS" => .ok (base, im.compressed)
  | .str s => .error (.badFormat ("Unknown compression algo " ++ s))
  | .int _ => .error (.typeErr "can only concatenate str to str")

/-- The wire value of an enumerated field in FIR._save_frame: a raw integer
is passed through with no table lookup; a symbolic name is looked up in its
table and a miss is a KeyError. -/
def enumWire (t : List (String × Nat)) (v : PyIntStr) : Except PyErr Nat :=
  match v with
  | .int n => .ok n
  | .str s =>
    match dictGet t s with
    | some n => .ok n
    | none => .error (.keyErr s)

/-- pack of a capture datetime: `>HBBBBBH` over year, month, day, hour,
minute, second and microsecond divided by 1000. -/
def packDatetime (dt : PyDatetime) : Except PyErr (List Byte) := do
  let y ← packU16 dt.year
  let mo ← packU8 dt.month
  let d ← packU8 dt.day
  let h ← packU8 dt.hour
  let mi ← packU8 dt.minute
  let s ← packU8 dt.second
  let ms ← packU16 (dt.microsecond / 1000)
  return y ++ mo ++ d ++ h ++ mi ++ s ++ ms

/-- pack of one quality record: `>B2s2s`. -/
def packFIRQuality (q : FIRQualityRecord) : Except PyErr (List Byte) := do
  let s ← packU8 q.score
  return s ++ packBytes 2 q.algo_vendor_id ++ packBytes 2 q.algo_id

/-- pack of one certification record: `>2s1s`. -/
def packFIRCert (c : FIRCertificationRecord) : Except PyErr (List Byte) :=
  .ok (packBytes 2 c.authority_id ++ packBytes 1 c.scheme_id)

/-- The wire bytes of one quality record. -/
def qualWire (q : FIRQualityRecord) : List Byte :=
  [q.score] ++ q.algo_vendor_id ++ q.algo_id

/-- The wire bytes of one certification record. -/
def certWire (c : FIRCertificationRecord) : List Byte :=
  c.authority_id ++ c.scheme_id

/-- The certification block bytes of one finger frame under a flag. -/
def certBlock (cf : Bool) (cs : List FIRCertificationRecord) : List Byte :=
  if cf then [cs.length] ++ (cs.map certWire).flatten
  else []

/-- Concatenate the encodings of a list of records, in order. -/
def packListM (f : α → Except PyErr (List Byte)) : List α → Except PyErr (List Byte)
  | [] => .ok []
  | x :: xs => do
    let b ← f x
    let bs ← packListM f xs
    return b ++ bs

/-- Encode each frame of a list in order, returning the buffers (the
frames loop of the save-all entry points). -/
def mapFrames (f : α → Except PyErr (List Byte)) : List α → Except PyErr (List (List Byte))
  | [] => .ok []
  | x :: xs => do
    let b ← f x
    let bs ← mapFrames f xs
    return b :: bs

/-- The certification block of FIR._save_frame: written only when the
file-level flag is set, as the record count followed by the records. -/
def packCertBlock (cert_flag : Bool) (cs : List FIRCertificationRecord) :
    Except PyErr (List Byte) :=
  if cert_flag then do
    let clen ← packU8 cs.length
    let cb ← packListM packFIRCert cs
    pure (clen ++ cb)
  else pure ([] : List Byte)

/-- FIR._save_frame: serialize one frame (its 4-byte length field, the
representation header, and the image data). -/
def firSaveFrame (im : FIRImage) (cert_flag : Bool) : Except PyErr (List Byte) := do
  let (bit_depth, image_data) ← firEncodeImageData im
  let ns := im.header
  let dtb ← packDatetime ns.capture_datetime
  let qlen ← packU8 ns.quality_records.length
  let qb ← packListM packFIRQuality ns.quality_records
  let certb ← packCertBlock cert_flag ns.certification_records
  let posv ← enumWire POSITION ns.position
  let scalev ← enumWire UNIT ns.scale_units
  let compv ← enumWire COMPRESSION ns.image_compression_algo
  let imprv ← enumWire IMPRESSION ns.impression_type
  let b1 ← packU8 posv
  let b2 ← packU8 ns.number
  let b3 ← packU8 scalev
  let b4 ← packU16 ns.horizontal_scan_sampling_rate
  let b5 ← packU16 ns.vertical_scan_sampling_rate
  let b6 ← packU16 ns.horizontal_image_sampling_rate
  let b7 ← packU16 ns.vertical_image_sampling_rate
  let b8 ← packU8 bit_depth
  let b9 ← packU8 compv
  let b10 ← packU8 imprv
  let b11 ← packU16 im.width
  let b12 ← packU16 im.height
  let b13 ← packU32 image_data.length
  let rheader := dtb ++ packBytes 1 ns.capture_device_technology_id ++
    packBytes 2 ns.capture_device_vendor_id ++ packBytes 2 ns.capture_device_type_id ++
    qlen ++ qb ++ certb ++
    b1 ++ b2 ++ b3 ++ b4 ++ b5 ++ b6 ++ b7 ++ b8 ++ b9 ++ b10 ++ b11 ++ b12 ++ b13
  let lenb ← packU32 (4 + rheader.length + image_data.length)
  return lenb ++ rheader ++ image_data

/-- FIR._save: single-frame save; the general header is `FIR\x00`, then
pack `>4sIH?B` of version 020, total length, one representation, the
certification flag and one position. -/
def firSave (im : FIRImage) : Except PyErr (List Byte) := do
  let cert := !im.header.certification_records.isEmpty
  let fr ← firSaveFrame im cert
  let lenb ← packU32 (16 + fr.length)
  let nbb ← packU16 1
  return [70, 73, 82, 0] ++ [48, 50, 48, 0] ++ lenb ++ nbb ++ packBool cert ++ [1] ++ fr

/-- FIR._save_all (general path): the certification flag is the OR over all
frames of list non-emptiness, the position count is the number of distinct
position values, and the frame buffers follow the general header in order. -/
def firSaveAll (ims : List FIRImage) : Except PyErr (List Byte) := do
  let cert := ims.any (fun im => !im.header.certification_records.isEmpty)
  let positions := (ims.map (fun im => im.header.position)).dedup
  let bufs ← mapFrames (fun im => firSaveFrame im cert) ims
  let total := (bufs.map List.length).sum
  let lenb ← packU32 (16 + total)
  let nbb ← packU16 bufs.length
  let npb ← packU8 positions.length
  return [70, 73, 82, 0] ++ [48, 50, 48, 0] ++ lenb ++ nbb ++ packBool cert ++ npb ++ bufs.flatten

/-! ### FIR.py: the frame decoder `read_header` -/

/-- The fields of read_header's temporary namespace that the navigator
consumes besides the namedtuple: the frame length, bit depth, line lengths
and the declared image data length. -/
structure FIRNs where
  length : Nat
  bit_depth : Nat
  horizontal_line_length : Nat
  vertical_line_length : Nat
  image_data_length : Nat
  deriving DecidableEq, Repr

/-- Unpack of the 9 datetime bytes followed by the datetime constructor
(which receives the stored milliseconds as its microsecond argument). -/
def rdDatetime (bs : List Byte) : Except PyErr (PyDatetime × List Byte) := do
  let (y, bs) ← rdU16 bs
  let (mo, bs) ← rdU8 bs
  let (d, bs) ← rdU8 bs
  let (h, bs) ← rdU8 bs
  let (mi, bs) ← rdU8 bs
  let (s, bs) ← rdU8 bs
  let (ms, bs) ← rdU16 bs
  let dt ← mkDatetime y mo d h mi s ms
  return (dt, bs)

/-- Read one quality record (`>B2s2s`). -/
def rdFIRQuality (bs : List Byte) : Except PyErr (FIRQualityRecord × List Byte) := do
  let (s, bs) ← rdU8 bs
  let (v, bs) ← rdTake 2 bs
  let (a, bs) ← rdTake 2 bs
  return (⟨s, v, a⟩, bs)

/-- Read one certification record (`>2s1s`). -/
def rdFIRCert (bs : List Byte) : Except PyErr (FIRCertificationRecord × List Byte) := do
  let (au, bs) ← rdTake 2 bs
  let (sc, bs) ← rdTake 1 bs
  return (⟨au, sc⟩, bs)

/-- Inverted-dict lookup of a wire code, raising KeyError on an unmapped
code as the decoder's dict subscript does. -/
def invGet [BEq α] (t : List (String × α)) (c : α) : Except PyErr String :=
  match invLookup t c with
  | some s => .ok s
  | none => .error (.keyErr "unknown enumerated value")

/-- The conditional certification block read of read_header: present only
when the file-level flag is set; returns the records, the rest of the
stream and the byte count consumed. -/
def rdCertBlock (cert_flag : Bool) (bs : List Byte) :
    Except PyErr (List FIRCertificationRecord × List Byte × Nat) :=
  if cert_flag then do
    let (c_length, r) ← rdU8 bs
    let (cs, r) ← rdList rdFIRCert c_length r
    pure (cs, r, 1 + 3 * c_length)
  else pure (([] : List FIRCertificationRecord), bs, 0)

/-- FIRImageFile.read_header: decode one representation header from the
bytes at the current position; returns the namedtuple, the byte count
consumed and the temporary namespace. -/
def firReadHeader (cert_flag : Bool) (bs : List Byte) :
    Except PyErr (FIRRepresentationHeader × Nat × FIRNs) := do
  let (length, r) ← rdU32 bs
  let (dt, r) ← rdDatetime r
  let (tech, r) ← rdTake 1 r
  let (vend, r) ← rdTake 2 r
  let (typ, r) ← rdTake 2 r
  let (q_length, r) ← rdU8 r
  let (qs, r) ← rdList rdFIRQuality q_length r
  let (cs, r, certBytes) ← rdCertBlock cert_flag r
  let (posb, r) ← rdU8 r
  let (numb, r) ← rdU8 r
  let (scaleb, r) ← rdU8 r
  let (hss, r) ← rdU16 r
  let (vss, r) ← rdU16 r
  let (his, r) ← rdU16 r
  let (vis, r) ← rdU16 r
  let (bd, r) ← rdU8 r
  let (compb, r) ← rdU8 r
  let (imprb, r) ← rdU8 r
  let (hll, r) ← rdU16 r
  let (vll, r) ← rdU16 r
  let (idl, _) ← rdU32 r
  let pos ← invGet POSITION posb
  let scale ← invGet UNIT scaleb
  let comp ← invGet COMPRESSION compb
  let impr ← invGet IMPRESSION imprb
  let nb := 19 + 5 * q_length + certBytes + 22
  return (⟨length, dt, tech, vend, typ, qs, cs, .str pos, numb, .str scale,
    hss, vss, his, vis, .str comp, .str impr⟩, nb,
    ⟨length, bd, hll, vll, idl⟩)

/-! ### FIR.py: the container navigator (FIRImageFile) -/

/-- The mutable navigator state of an open FIRImageFile: resolved frame
offsets, cached representation headers (one per resolved frame), current
frame number (-1 before the first resolve), offset of the next unresolved
frame, the current header cell (the attribute the caller may mutate), and
the mode/size/tile data descriptor of the current frame. -/
structure FIRNav where
  framePos : List Nat
  rheaders : List FIRRepresentationHeader
  frame : Int
  next : Nat
  header : Option FIRRepresentationHeader
  mode : String
  size : Nat × Nat
  tile : Option (String × Nat)
  deriving DecidableEq, Repr

/-- The immutable facts of an open container: the file bytes and the
general-header fields the navigator consults. -/
structure FIRCtx where
  file : List Byte
  certFlag : Bool
  nFrames : Nat
  deriving DecidableEq, Repr

/-- Current frame number (FIRImageFile.tell). -/
def firTell (s : FIRNav) : Int := s.frame

/-- The while loop of FIRImageFile._seek: while the target offset is
unresolved, move to the next frame, record its offset, decode its header,
and compute the following offset from `_frame_pos[frame]` (the target
index, as in the source).  Errors carry the partially mutated state, as a
Python exception leaves the object.  One fuel unit per appended offset;
`target + 1` units always suffice. -/
def firSeekLoop (ctx : FIRCtx) (target : Nat) :
    Nat → FIRNav → Except (PyErr × FIRNav) FIRNav
  | 0, s => .ok s
  | fuel + 1, s =>
    if s.framePos.length ≤ target then
      if s.next = 0 then .error (.eofErr "no more images in FIR file", s)
      else
        let fp := s.framePos ++ [s.next]
        match firReadHeader ctx.certFlag (ctx.file.drop s.next) with
        | .error e => .error (e, { s with framePos := fp })
        | .ok (rh, _, _) =>
          let rhs := s.rheaders ++ [rh]
          match fp.get? target with
          | none => .error (.indexErr "list index out of range",
              { s with framePos := fp, rheaders := rhs })
          | some base =>
            firSeekLoop ctx target fuel
              { s with framePos := fp, rheaders := rhs,
                       next := base + rh.length, frame := s.frame + 1 }
    else .ok s

/-- The data-descriptor selection at the end of FIRImageFile._seek, from
the freshly decoded header: the decoder name and the payload offset.  The
JPEG 2000 branches read the payload signature to pick the codec. -/
def firSelectTile (ctx : FIRCtx) (rh : FIRRepresentationHeader) (pos nb : Nat) :
    Except PyErr (String × Nat) :=
  let j2k : Except PyErr (String × Nat) :=
    let sig := (ctx.file.drop (pos + nb)).take 4
    if sig = [255, 79, 255, 81] then .ok ("jpeg2k", pos + nb)
    else if (ctx.file.drop (pos + nb)).take 12 =
        [0, 0, 0, 12, 106, 80, 32, 32, 13, 10, 135, 10] then .ok ("jpeg2k", pos + nb)
    else .error (.badFormat "not a JPEG 2000 image")
  match rh.image_compression_algo with
  | .str "RAW" => .ok ("raw", pos + nb)
  | .str "RAW_PACKED" => .ok ("raw", pos + nb)
  | .str "WSQ" => .ok ("wsq", pos + nb)
  | .str "JPEG" => .ok ("jpeg", pos + nb)
  | .str "JPEG2000_LOSSY" => j2k
  | .str "JPEG2000_LOSSLESS" => j2k
  | .str s => .error (.badFormat ("Unknown compression algo " ++ s))
  | .int _ => .error (.typeErr "can only concatenate str to str")

/-- FIRImageFile._seek: save the current header cell into the cache, walk
forward while the target offset is unresolved, then re-read the target's
header from the stream, serve the cached header cell, and set up the data
descriptor.  Errors carry the state as mutated so far. -/
def firSeekRaw (ctx : FIRCtx) (s : FIRNav) (frame : Nat) :
    Except (PyErr × FIRNav) FIRNav := do
  let s ←
    if h : 0 ≤ s.frame ∧ s.header.isSome then
      if s.frame.toNat < s.rheaders.length then
        pure { s with rheaders := s.rheaders.set s.frame.toNat (s.header.get h.2) }
      else .error (.indexErr "list assignment index out of range", s)
    else pure s
  let s ← firSeekLoop ctx frame (frame + 1) s
  match s.framePos.get? frame with
  | none => .error (.indexErr "list index out of range", s)
  | some pos =>
    match firReadHeader ctx.certFlag (ctx.file.drop pos) with
    | .error e => .error (e, s)
    | .ok (rh, nb, ns) =>
      match s.rheaders.get? frame with
      | none => .error (.indexErr "list index out of range", s)
      | some cached =>
        let s := { s with header := some cached, next := pos + cached.length,
                          frame := (frame : Int),
                          mode := if ns.bit_depth = 8 then "L" else s.mode,
                          size := (ns.horizontal_line_length, ns.vertical_line_length) }
        match firSelectTile ctx rh pos nb with
        | .error e => .error (e, s)
        | .ok t => .ok { s with tile := some t }

/-- FIRImageFile._seek_check: an index outside [0, n_frames) raises
EOFError; otherwise the result says whether a move is needed. -/
def firSeekCheck (ctx : FIRCtx) (s : FIRNav) (frame : Int) : Except PyErr Bool :=
  if frame < 0 ∨ (ctx.nFrames : Int) ≤ frame then
    .error (.eofErr "attempt to seek outside sequence")
  else .ok (s.frame ≠ frame)

/-- FIRImageFile.seek: the public move, running the range check before any
mutation; a failed check leaves the state exactly as it was. -/
def firSeek (ctx : FIRCtx) (s : FIRNav) (frame : Int) :
    Except (PyErr × FIRNav) FIRNav :=
  match firSeekCheck ctx s frame with
  | .error e => .error (e, s)
  | .ok false => .ok s
  | .ok true => firSeekRaw ctx s frame.toNat

/-- FIRImageFile._open: check the magic and version tags, unpack the
general header, and eagerly resolve frame 0. -/
def firOpen (file : List Byte) : Except PyErr (FIRCtx × FIRNav) :=
  let hdr := file.take 16
  if hdr.take 4 ≠ [70, 73, 82, 0] then .error (.badFormat "not a ISO19794-4 file")
  else if (hdr.drop 4).take 4 ≠ [48, 50, 48, 0] then
    .error (.badFormat "Invalid version for a ISO19794-4 file")
  else if hdr.length < 16 then
    .error (.structErr "unpack requires a buffer of 12 bytes")
  else
    let nb := beVal ((hdr.drop 12).take 2)
    let ctx : FIRCtx := ⟨file, hdr.getD 14 0 ≠ 0, nb⟩
    let s0 : FIRNav := ⟨[], [], -1, 16, none, "", (0, 0), none⟩
    match firSeekRaw ctx s0 0 with
    | .error (e, _) => .error e
    | .ok s => .ok (ctx, s)

/-! ### FAC.py: enumeration tables (ISO 19794-5) -/

/-- Which representation-header fields are legal for which format version
(FACRepresentationHeaderInfo in FAC.py). -/
def FACRepresentationHeaderInfo : List (String × List String) := [
  ("capture_datetime", []),
  ("capture_device_technology_id", []),
  ("capture_device_vendor_id", []),
  ("capture_device_type_id", []),
  ("quality_records", []),
  ("landmark_points", ["010"]),
  ("gender", ["010"]),
  ("eye_colour", ["010"]),
  ("hair_colour", ["010"]),
  ("subject_height", []),
  ("property_mask", ["010"]),
  ("expression", ["010"]),
  ("pose_yaw", ["010"]),
  ("pose_pitch", ["010"]),
  ("pose_roll", ["010"]),
  ("pose_uncertainty_yaw", ["010"]),
  ("pose_uncertainty_pitch", ["010"]),
  ("pose_uncertainty_roll", ["010"]),
  ("face_image_type", ["010"]),
  ("image_data_type", ["010"]),
  ("source_type", ["010"]),
  ("device_type", ["010"]),
  ("quality", ["010"])]

/-- Gender codes. -/
def GENDER : List (String × Nat) := [("X", 0), ("M", 1), ("F", 2), ("U", 255)]

/-- Eye colour codes. -/
def EYE_COLOUR : List (String × Nat) := [
  ("UNSPECIFIED", 0), ("BLACK", 1), ("BLUE", 2), ("BROWN", 3), ("GRAY", 4),
  ("GREEN", 5), ("MULTI_COLOURED", 6), ("PINK", 7), ("UNKNOWN", 255)]

/-- Hair colour codes. -/
def HAIR_COLOUR : List (String × Nat) := [
  ("UNSPECIFIED", 0), ("BALD", 1), ("BLACK", 2), ("BLONDE", 3), ("BROWN", 4),
  ("GRAY", 5), ("WHITE", 6), ("RED", 7), ("UNKNOWN", 255)]

/-- The property-mask bit-flag table: each named attribute owns one bit of
the 24-bit field. -/
def PROPERTY_FLAGS : List (String × Nat) := [
  ("SPECIFIED", 1),
  ("GLASSES", 2),
  ("MOUSTACHE", 4),
  ("BEARD", 8),
  ("TEETH_VISIBLE", 16),
  ("BLINK", 32),
  ("MOUTH_OPEN", 64),
  ("LEFT_EYE_PATCH", 128),
  ("RIGHT_EYE_PATCH", 256),
  ("DARK_GLASSES", 512),
  ("MEDICAL_CONDITION", 1024)]

/-- Expression codes (two wire bytes each). -/
def EXPRESSION : List (String × List Byte) := [
  ("UNSPECIFIED", [0, 0]),
  ("NEUTRAL", [0, 1]),
  ("SMILE_CLOSED_JAW", [0, 2]),
  ("SMILE_OPEN_MOUTH", [0, 3]),
  ("RAISED_EYEBROWS", [0, 4]),
  ("EYES_LOOKING_AWAY", [0, 5]),
  ("SQUINTING", [0, 6]),
  ("FROWNING", [0, 7])]

/-- Face image type codes. -/
def FACE_IMAGE_TYPE : List (String × Nat) := [
  ("BASIC", 0), ("FULL_FRONTAL", 1), ("TOKEN_FRONTAL", 2)]

/-- Image data (compression) type codes. -/
def IMAGE_DATA_TYPE : List (String × Nat) := [("JPEG", 0), ("JPEG2000", 1)]

/-- Source type codes. -/
def SOURCE_TYPE : List (String × Nat) := [
  ("UNSPECIFIED", 0), ("STATIC_UNKNOWN", 1), ("STATIC_CAMERA", 2),
  ("STATIC_SCANNER", 3), ("FRAME_UNKNWON", 4), ("FRAME_ANALOGUE_CAMERA", 5),
  ("FRAME_DIGITAL_CAMERA", 6), ("UNKNOWN", 7)]

/-- Colour-space code to (bit depth, pixel mode). -/
def COLOUR_SPACE : List (Nat × (Nat × String)) := [
  (0, (24, "RGB")), (1, (24, "RGB")), (2, (24, "YCbCr")), (3, (8, "L")),
  (4, (24, "RGB"))]

/-! ### FAC.py: record types and the header dict -/

/-- FACLandmarkPoint namedtuple. -/
structure FACLandmarkPoint where
  point_type : Nat
  point_code : Nat
  x : Nat
  y : Nat
  z : Nat
  deriving DecidableEq, Repr

/-- FACQualityRecord namedtuple. -/
structure FACQualityRecord where
  score : Nat
  algo_vendor_id : List Byte
  algo_id : List Byte
  deriving DecidableEq, Repr

/-- The representation header a caller attaches to a face image: a Python
dict whose keys may be absent (the encoder substitutes documented
defaults). -/
structure FACHeader where
  capture_datetime : Option PyDatetime := none
  capture_device_technology_id : Option (List Byte) := none
  capture_device_vendor_id : Option (List Byte) := none
  capture_device_type_id : Option (List Byte) := none
  quality_records : Option (List FACQualityRecord) := none
  landmark_points : Option (List FACLandmarkPoint) := none
  gender : Option String := none
  eye_colour : Option String := none
  hair_colour : Option String := none
  subject_height : Option Nat := none
  property_mask : Option (List String) := none
  expression : Option String := none
  pose_yaw : Option Int := none
  pose_pitch : Option Int := none
  pose_roll : Option Int := none
  pose_uncertainty_yaw : Option Int := none
  pose_uncertainty_pitch : Option Int := none
  pose_uncertainty_roll : Option Int := none
  face_image_type : Option String := none
  image_data_type : Option String := none
  source_type : Option String := none
  device_type : Option (List Byte) := none
  quality : Option (List Byte) := none
  deriving DecidableEq, Repr

/-- The key set of the header dict: the names of the supplied fields. -/
def FACHeader.keys (h : FACHeader) : List String :=
  (if h.capture_datetime.isSome then ["capture_datetime"] else []) ++
  (if h.capture_device_technology_id.isSome then ["capture_device_technology_id"] else []) ++
  (if h.capture_device_vendor_id.isSome then ["capture_device_vendor_id"] else []) ++
  (if h.capture_device_type_id.isSome then ["capture_device_type_id"] else []) ++
  (if h.quality_records.isSome then ["quality_records"] else []) ++
  (if h.landmark_points.isSome then ["landmark_points"] else []) ++
  (if h.gender.isSome then ["gender"] else []) ++
  (if h.eye_colour.isSome then ["eye_colour"] else []) ++
  (if h.hair_colour.isSome then ["hair_colour"] else []) ++
  (if h.subject_height.isSome then ["subject_height"] else []) ++
  (if h.property_mask.isSome then ["property_mask"] else []) ++
  (if h.expression.isSome then ["expression"] else []) ++
  (if h.pose_yaw.isSome then ["pose_yaw"] else []) ++
  (if h.pose_pitch.isSome then ["pose_pitch"] else []) ++
  (if h.pose_roll.isSome then ["pose_roll"] else []) ++
  (if h.pose_uncertainty_yaw.isSome then ["pose_uncertainty_yaw"] else []) ++
  (if h.pose_uncertainty_pitch.isSome then ["pose_uncertainty_pitch"] else []) ++
  (if h.pose_uncertainty_roll.isSome then ["pose_uncertainty_roll"] else []) ++
  (if h.face_image_type.isSome then ["face_image_type"] else []) ++
  (if h.image_data_type.isSome then ["image_data_type"] else []) ++
  (if h.source_type.isSome then ["source_type"] else []) ++
  (if h.device_type.isSome then ["device_type"] else []) ++
  (if h.quality.isSome then ["quality"] else [])

/-! ### FAC.py: the frame encoder `_save_frame` -/

/-- The slice of a Pillow face image the encoder consumes: pixel mode,
size, the output of the external JPEG / JPEG 2000 codec (the payload), and
the header dict. -/
structure FACImage where
  mode : String
  width : Nat
  height : Nat
  compressed : List Byte
  header : FACHeader
  deriving DecidableEq, Repr

/-- The reduce over PROPERTY_FLAGS in FAC._save_frame: the OR of the bit
values of the named flags present in the caller's set. -/
def maskValue (mask : List String) : Nat :=
  ((PROPERTY_FLAGS.filter (fun kv => mask.contains kv.1)).map (·.2)).foldl (· ||| ·) 0

/-- pack of one face quality record: `>B2s2s`. -/
def packFACQuality (q : FACQualityRecord) : Except PyErr (List Byte) := do
  let s ← packU8 q.score
  return s ++ packBytes 2 q.algo_vendor_id ++ packBytes 2 q.algo_id

/-- pack of one landmark point: `>BBHHH`. -/
def packLandmark (p : FACLandmarkPoint) : Except PyErr (List Byte) := do
  let a ← packU8 p.point_type
  let b ← packU8 p.point_code
  let c ← packU16 p.x
  let d ← packU16 p.y
  let e ← packU16 p.z
  return a ++ b ++ c ++ d ++ e

/-- The illegal-keys check at the top of FAC._save_frame: every supplied
header key must list the requested version in
FACRepresentationHeaderInfo. -/
def facCheckKeys (ns : FACHeader) (version : String) : Except PyErr Unit :=
  if ns.keys.filter (fun k =>
      !(((dictGet FACRepresentationHeaderInfo k).getD []).contains version)) ≠ []
  then throw (.badFormat "Unknown value in representation header")
  else pure ()

/-- The payload selection of FAC._save_frame: the external codec output
for JPEG / JPEG 2000, an error for any other image_data_type value. -/
def facImageData (idt : String) (compressed : List Byte) :
    Except PyErr (List Byte) :=
  if idt = "JPEG" ∨ idt = "JPEG2000" then pure compressed
  else throw (.badFormat ("Unknown compression algo " ++ idt))

/-- The version-030 datetime block of FAC._save_frame (empty for the
other versions). -/
def facDtb (now : PyDatetime) (ns : FACHeader) (version : String) :
    Except PyErr (List Byte) :=
  if version = "030" then packDatetime (ns.capture_datetime.getD now)
  else pure ([] : List Byte)

/-- The version-010 facial-information block of FAC._save_frame (empty
for the other versions). -/
def facFib (ns : FACHeader) (version : String) : Except PyErr (List Byte) :=
  if version = "010" then do
    let nlm ← packU16 (ns.landmark_points.getD []).length
    let gv ← pyGet GENDER (ns.gender.getD "X")
    let gb ← packU8 gv
    let ev ← pyGet EYE_COLOUR (ns.eye_colour.getD "UNSPECIFIED")
    let eb ← packU8 ev
    let hv ← pyGet HAIR_COLOUR (ns.hair_colour.getD "UNSPECIFIED")
    let hb ← packU8 hv
    let mv ← packU32 (maskValue (ns.property_mask.getD []))
    let ex ← pyGet EXPRESSION (ns.expression.getD "UNSPECIFIED")
    let p1 ← packI8 (ns.pose_yaw.getD 0)
    let p2 ← packI8 (ns.pose_pitch.getD 0)
    let p3 ← packI8 (ns.pose_roll.getD 0)
    let p4 ← packI8 (ns.pose_uncertainty_yaw.getD 0)
    let p5 ← packI8 (ns.pose_uncertainty_pitch.getD 0)
    let p6 ← packI8 (ns.pose_uncertainty_roll.getD 0)
    pure (nlm ++ gb ++ eb ++ hb ++ mv.drop 1 ++ packBytes 2 ex ++
      p1 ++ p2 ++ p3 ++ p4 ++ p5 ++ p6)
  else pure ([] : List Byte)

/-- The version-030 quality block of FAC._save_frame (empty for the
other versions). -/
def facQb (ns : FACHeader) (version : String) : Except PyErr (List Byte) :=
  if version = "030" then packListM packFACQuality (ns.quality_records.getD [])
  else pure ([] : List Byte)

/-- The colour-space code selection of FAC._save_frame: the subscript [0]
of the COLOUR_SPACE entries whose pixel mode matches the image. -/
def facCsv (mode : String) : Except PyErr Nat :=
  match (COLOUR_SPACE.filter (fun kv => mode == kv.2.2)).head? with
  | some kv => pure kv.1
  | none => throw (.indexErr "list index out of range")

/-- FAC._save_frame: serialize one face frame for the given version.  The
caller-supplied `now` stands for `datetime.datetime.now()`, the default
capture datetime (the single non-deterministic input of the writer). -/
def facSaveFrame (now : PyDatetime) (im : FACImage) (version : String) :
    Except PyErr (List Byte) := do
  let ns := im.header
  let _ ← facCheckKeys ns version
  let idt := ns.image_data_type.getD "JPEG"
  let image_data ← facImageData idt im.compressed
  let dtb ← facDtb now ns version
  let fib ← facFib ns version
  let qb ← facQb ns version
  let lmb ← packListM packLandmark (ns.landmark_points.getD [])
  let fitv ← pyGet FACE_IMAGE_TYPE (ns.face_image_type.getD "BASIC")
  let fitb ← packU8 fitv
  let idtv ← pyGet IMAGE_DATA_TYPE idt
  let idtb ← packU8 idtv
  let wb ← packU16 im.width
  let hb2 ← packU16 im.height
  let csv ← facCsv im.mode
  let csb ← packU8 csv
  let srcv ← pyGet SOURCE_TYPE (ns.source_type.getD "UNSPECIFIED")
  let srcb ← packU8 srcv
  let iib := fitb ++ idtb ++ wb ++ hb2 ++ csb ++ srcb ++ [0, 0] ++ u16be 0
  let rheader := dtb ++ fib ++ qb ++ lmb ++ iib
  let lenb ← packU32 (4 + rheader.length + image_data.length)
  return lenb ++ rheader ++ image_data

/-- FAC._save: single-frame save.  Only version 010 writes a general
header; for any other version the magic tag is followed directly by the
frame bytes. -/
def facSave (now : PyDatetime) (im : FACImage) (version : String) :
    Except PyErr (List Byte) := do
  let fr ← facSaveFrame now im version
  if version = "010" then do
    let lenb ← packU32 (14 + fr.length)
    let nbb ← packU16 1
    return [70, 65, 67, 0] ++ [48, 49, 48, 0] ++ lenb ++ nbb ++ fr
  else
    return [70, 65, 67, 0] ++ fr

/-- FAC._save_all (general path): version 010 writes a general header with
the frame count; version 030 evaluates the undefined local `positions`
while building the header (NameError); any other version writes nothing
between the magic and the frames. -/
def facSaveAll (now : PyDatetime) (ims : List FACImage) (version : String) :
    Except PyErr (List Byte) := do
  let bufs ← mapFrames (fun im => facSaveFrame now im version) ims
  let total := (bufs.map List.length).sum
  if version = "010" then do
    let lenb ← packU32 (14 + total)
    let nbb ← packU16 bufs.length
    return [70, 65, 67, 0] ++ [48, 49, 48, 0] ++ lenb ++ nbb ++ bufs.flatten
  else if version = "030" then
    throw (.nameErr "name positions is not defined")
  else
    return [70, 65, 67, 0] ++ bufs.flatten

/-! ### FAC.py: the frame decoder `read_header` -/

/-- The dict FACImageFile.read_header returns for a version 010 frame. -/
structure FACDecodedHeader where
  landmark_points : List FACLandmarkPoint
  gender : String
  eye_colour : String
  hair_colour : String
  property_mask : List String
  expression : String
  pose_yaw : Int
  pose_pitch : Int
  pose_roll : Int
  pose_uncertainty_yaw : Int
  pose_uncertainty_pitch : Int
  pose_uncertainty_roll : Int
  face_image_type : String
  image_data_type : String
  source_type : String
  device_type : List Byte
  quality : Nat
  deriving DecidableEq, Repr

/-- The temporary-namespace fields the face navigator consumes. -/
structure FACNs where
  length : Nat
  width : Nat
  height : Nat
  mode : String
  bit_depth : Nat
  deriving DecidableEq, Repr

/-- Read one landmark point (`>BBHHH`). -/
def rdLandmark (bs : List Byte) : Except PyErr (FACLandmarkPoint × List Byte) := do
  let (a, bs) ← rdU8 bs
  let (b, bs) ← rdU8 bs
  let (x, bs) ← rdU16 bs
  let (y, bs) ← rdU16 bs
  let (z, bs) ← rdU16 bs
  return (⟨a, b, x, y, z⟩, bs)

/-- Read one face quality record (`>B2s2s`). -/
def rdFACQuality (bs : List Byte) : Except PyErr (FACQualityRecord × List Byte) := do
  let (s, bs) ← rdU8 bs
  let (v, bs) ← rdTake 2 bs
  let (a, bs) ← rdTake 2 bs
  return (⟨s, v, a⟩, bs)

/-- FACImageFile.read_header.  The 010 branch decodes the full layout.  The
030 branch reads its blocks but then fails while building the result dict:
its raw 3-byte property mask meets the integer bit test (TypeError).  Any
other version fails at the landmark loop on the never-assigned
`number_landmark_points` (AttributeError). -/
def facReadHeader (version : String) (bs : List Byte) :
    Except PyErr (FACDecodedHeader × Nat × FACNs) := do
  if version = "010" then do
    let (length, r) ← rdU32 bs
    let (nlm, r) ← rdU16 r
    let (genderb, r) ← rdU8 r
    let (eyeb, r) ← rdU8 r
    let (hairb, r) ← rdU8 r
    let (maskb, r) ← rdTake 3 r
    let maskv := beVal maskb
    let (exprb, r) ← rdTake 2 r
    let (p1, r) ← rdI8 r
    let (p2, r) ← rdI8 r
    let (p3, r) ← rdI8 r
    let (p4, r) ← rdI8 r
    let (p5, r) ← rdI8 r
    let (p6, r) ← rdI8 r
    let (lms, r) ← rdList rdLandmark nlm r
    let (fitb, r) ← rdU8 r
    let (idtb, r) ← rdU8 r
    let (w, r) ← rdU16 r
    let (hgt, r) ← rdU16 r
    let (csb, r) ← rdU8 r
    let (srcb, r) ← rdU8 r
    let (dev, r) ← rdTake 2 r
    let (qual, _) ← rdU16 r
    let cs ← pyGet COLOUR_SPACE csb
    let gender ← invGet GENDER genderb
    let eye ← invGet EYE_COLOUR eyeb
    let hair ← invGet HAIR_COLOUR hairb
    let mask := (PROPERTY_FLAGS.filter (fun kv => maskv &&& kv.2 ≠ 0)).map (·.1)
    let expr ← invGet EXPRESSION exprb
    let fit ← invGet FACE_IMAGE_TYPE fitb
    let idt ← invGet IMAGE_DATA_TYPE idtb
    let src ← invGet SOURCE_TYPE srcb
    let nb := 4 + 16 + 8 * nlm + 12
    return (⟨lms, gender, eye, hair, mask, expr, p1, p2, p3, p4, p5, p6,
      fit, idt, src, dev, qual⟩, nb, ⟨length, w, hgt, cs.2, cs.1⟩)
  else if version = "030" then do
    let (_length, r) ← rdU32 bs
    let (_dt, r) ← rdDatetime r
    let (_tech, r) ← rdTake 1 r
    let (_vend, r) ← rdTake 2 r
    let (_typ, r) ← rdTake 2 r
    let (q_length, r) ← rdU8 r
    let (_qs, r) ← rdList rdFACQuality q_length r
    let (nlm, r) ← rdU16 r
    let (genderb, r) ← rdU8 r
    let (eyeb, r) ← rdU8 r
    let (hairb, r) ← rdU8 r
    let (_sh, r) ← rdU8 r
    let (_maskb, r) ← rdTake 3 r
    let (_exprb, r) ← rdTake 2 r
    let (_p1, r) ← rdI8 r
    let (_p2, r) ← rdI8 r
    let (_p3, r) ← rdI8 r
    let (_p4, r) ← rdI8 r
    let (_p5, r) ← rdI8 r
    let (_p6, r) ← rdI8 r
    let (_lms, _) ← rdList rdLandmark nlm r
    let _ ← invGet GENDER genderb
    let _ ← invGet EYE_COLOUR eyeb
    let _ ← invGet HAIR_COLOUR hairb
    throw (.typeErr "unsupported operand types for bitwise and: bytes and int")
  else
    throw (.attrErr "number_landmark_points")

/-! ### FAC.py: the container navigator (FACImageFile) -/

/-- The mutable navigator state of an open FACImageFile. -/
structure FACNav where
  framePos : List Nat
  rheaders : List FACDecodedHeader
  frame : Int
  next : Nat
  header : Option FACDecodedHeader
  mode : String
  size : Nat × Nat
  tile : Option (String × Nat)
  deriving DecidableEq, Repr

/-- The immutable facts of an open face container. -/
structure FACCtx where
  file : List Byte
  version : String
  nFrames : Nat
  deriving DecidableEq, Repr

/-- The while loop of FACImageFile._seek, with the same
`_frame_pos[frame]` indexing as the source; the chain offset advances by
`ns.length`. -/
def facSeekLoop (ctx : FACCtx) (target : Nat) :
    Nat → FACNav → Except (PyErr × FACNav) FACNav
  | 0, s => .ok s
  | fuel + 1, s =>
    if s.framePos.length ≤ target then
      if s.next = 0 then .error (.eofErr "no more images in FAC file", s)
      else
        let fp := s.framePos ++ [s.next]
        match facReadHeader ctx.version (ctx.file.drop s.next) with
        | .error e => .error (e, { s with framePos := fp })
        | .ok (rh, _, ns) =>
          let rhs := s.rheaders ++ [rh]
          match fp.get? target with
          | none => .error (.indexErr "list index out of range",
              { s with framePos := fp, rheaders := rhs })
          | some base =>
            facSeekLoop ctx target fuel
              { s with framePos := fp, rheaders := rhs,
                       next := base + ns.length, frame := s.frame + 1 }
    else .ok s

/-- The data-descriptor selection at the end of FACImageFile._seek, from
the freshly decoded header dict. -/
def facSelectTile (ctx : FACCtx) (rh : FACDecodedHeader) (pos nb : Nat) :
    Except PyErr (String × Nat) :=
  if rh.image_data_type = "JPEG" then .ok ("jpeg", pos + nb)
  else if rh.image_data_type = "JPEG2000" then
    let sig := (ctx.file.drop (pos + nb)).take 4
    if sig = [255, 79, 255, 81] then .ok ("jpeg2k", pos + nb)
    else if (ctx.file.drop (pos + nb)).take 12 =
        [0, 0, 0, 12, 106, 80, 32, 32, 13, 10, 135, 10] then .ok ("jpeg2k", pos + nb)
    else .error (.badFormat "not a JPEG 2000 image")
  else .error (.badFormat ("Unknown image_data_type " ++ rh.image_data_type))

/-- FACImageFile._seek. -/
def facSeekRaw (ctx : FACCtx) (s : FACNav) (frame : Nat) :
    Except (PyErr × FACNav) FACNav := do
  let s ←
    if h : 0 ≤ s.frame ∧ s.header.isSome then
      if s.frame.toNat < s.rheaders.length then
        pure { s with rheaders := s.rheaders.set s.frame.toNat (s.header.get h.2) }
      else .error (.indexErr "list assignment index out of range", s)
    else pure s
  let s ← facSeekLoop ctx frame (frame + 1) s
  match s.framePos.get? frame with
  | none => .error (.indexErr "list index out of range", s)
  | some pos =>
    match facReadHeader ctx.version (ctx.file.drop pos) with
    | .error e => .error (e, s)
    | .ok (rh, nb, ns) =>
      match s.rheaders.get? frame with
      | none => .error (.indexErr "list index out of range", s)
      | some cached =>
        let s := { s with header := some cached, next := pos + ns.length,
                          frame := (frame : Int),
                          mode := ns.mode, size := (ns.width, ns.height) }
        match facSelectTile ctx rh pos nb with
        | .error e => .error (e, s)
        | .ok t => .ok { s with tile := some t }

/-- FACImageFile._seek_check. -/
def facSeekCheck (ctx : FACCtx) (s : FACNav) (frame : Int) : Except PyErr Bool :=
  if frame < 0 ∨ (ctx.nFrames : Int) ≤ frame then
    .error (.eofErr "attempt to seek outside sequence")
  else .ok (s.frame ≠ frame)

/-- FACImageFile.seek. -/
def facSeek (ctx : FACCtx) (s : FACNav) (frame : Int) :
    Except (PyErr × FACNav) FACNav :=
  match facSeekCheck ctx s frame with
  | .error e => .error (e, s)
  | .ok false => .ok s
  | .ok true => facSeekRaw ctx s frame.toNat

/-- FACImageFile._open: check the magic, recognise the version tag, then
run the version branches of the source.  Version 010 unpacks its 6 header
bytes and resolves frame 0.  Version 030 unpacks the 9-byte format
`>IH?H` from the 6-byte slice `header[8:14]`, a struct error.  Version 020
is recognised but no branch stores `nb_facial_images`, so the
`self.n_frames` line raises KeyError. -/
def facOpen (file : List Byte) : Except PyErr (FACCtx × FACNav) :=
  let hdr := file.take 17
  if hdr.take 4 ≠ [70, 65, 67, 0] then .error (.badFormat "not a ISO19794-5 file")
  else
    let vb := (hdr.drop 4).take 4
    if vb = [48, 49, 48, 0] then
      if hdr.length < 14 then .error (.structErr "unpack requires a buffer of 6 bytes")
      else
        let nb := beVal ((hdr.drop 12).take 2)
        let ctx : FACCtx := ⟨file, "010", nb⟩
        let s0 : FACNav := ⟨[], [], -1, 14, none, "", (0, 0), none⟩
        match facSeekRaw ctx s0 0 with
        | .error (e, _) => .error e
        | .ok s => .ok (ctx, s)
    else if vb = [48, 50, 48, 0] then .error (.keyErr "nb_facial_images")
    else if vb = [48, 51, 48, 0] then
      .error (.structErr "unpack requires a buffer of 9 bytes")
    else .error (.badFormat "Invalid version for a ISO19794-5 file")

/-! ## Lemmas about the byte primitives -/

theorem bind_ok (a : α) (f : α → Except PyErr β) : (Except.ok a >>= f) = f a := rfl

theorem pure_eq_ok (a : α) : (pure a : Except PyErr α) = .ok a := rfl

theorem packBytes_exact {w : Nat} {bs : List Byte} (h : bs.length = w) :
    packBytes w bs = bs := by
  simp [packBytes, h, List.take_of_length_le (le_of_eq h)]

theorem rdTake_append {n : Nat} {xs rest : List Byte} (h : xs.length = n) :
    rdTake n (xs ++ rest) = .ok (xs, rest) := by
  subst h
  simp [rdTake, List.take_left, List.drop_left]

theorem packU8_ok {n : Nat} (h : n < 256) : packU8 n = .ok [n] := by
  simp [packU8, h]

theorem packU16_ok {n : Nat} (h : n < 65536) : packU16 n = .ok (u16be n) := by
  simp [packU16, h]

theorem packU32_ok {n : Nat} (h : n < 4294967296) : packU32 n = .ok (u32be n) := by
  simp [packU32, h]

theorem u16be_length (n : Nat) : (u16be n).length = 2 := rfl

theorem u32be_length (n : Nat) : (u32be n).length = 4 := rfl

theorem beVal_u16be {n : Nat} (h : n < 65536) : beVal (u16be n) = n := by
  simp only [u16be, beVal, List.foldl]
  omega

theorem beVal_u32be {n : Nat} (h : n < 4294967296) : beVal (u32be n) = n := by
  simp only [u32be, beVal, List.foldl]
  omega

theorem rdU8_cons (b : Byte) (rest : List Byte) : rdU8 (b :: rest) = .ok (b, rest) := by
  have h : rdTake 1 (b :: rest) = .ok ([b], rest) := @rdTake_append 1 [b] rest rfl
  simp [rdU8, h, beVal]

theorem rdU8_append (b : Byte) (rest : List Byte) :
    rdU8 ([b] ++ rest) = .ok (b, rest) := rdU8_cons b rest

theorem rdU16_append {n : Nat} (h : n < 65536) (rest : List Byte) :
    rdU16 (u16be n ++ rest) = .ok (n, rest) := by
  have ht : rdTake 2 (u16be n ++ rest) = .ok (u16be n, rest) := rdTake_append rfl
  simp [rdU16, ht, beVal_u16be h]

theorem rdU32_append {n : Nat} (h : n < 4294967296) (rest : List Byte) :
    rdU32 (u32be n ++ rest) = .ok (n, rest) := by
  have ht : rdTake 4 (u32be n ++ rest) = .ok (u32be n, rest) := rdTake_append rfl
  simp [rdU32, ht, beVal_u32be h]

theorem packI8_ok {i : Int} (h1 : -128 ≤ i) (h2 : i < 128) :
    packI8 i = .ok [(i % 256).toNat] := by
  simp [packI8, h1, h2]

theorem i8val_mod {i : Int} (h1 : -128 ≤ i) (h2 : i < 128) :
    i8val ((i % 256).toNat) = i := by
  have hnn : 0 ≤ i % 256 := Int.emod_nonneg i (by norm_num)
  have hcase : i % 256 = i ∨ i % 256 = i + 256 := by omega
  unfold i8val
  rcases hcase with hc | hc <;> rw [hc] at hnn ⊢
  · split <;> omega
  · split <;> omega

theorem rdI8_append {i : Int} (h1 : -128 ≤ i) (h2 : i < 128) (rest : List Byte) :
    rdI8 ((i % 256).toNat :: rest) = .ok (i, rest) := by
  have h : rdTake 1 ((i % 256).toNat :: rest) = .ok ([(i % 256).toNat], rest) := by
    simpa using @rdTake_append 1 [(i % 256).toNat] rest rfl
  simp [rdI8, h, beVal, i8val_mod h1 h2]

/-! ## Lemmas about the datetime codec -/

/-- The millisecond truncation the codec pair applies to a datetime: the
encoder stores milliseconds, the decoder reads them back as the
microsecond field. -/
def dtTruncMs (dt : PyDatetime) : PyDatetime :=
  { dt with microsecond := dt.microsecond / 1000 }

theorem PyDatetime.valid_fields {dt : PyDatetime} (h : dt.valid = true) :
    1 ≤ dt.year ∧ dt.year ≤ 9999 ∧ 1 ≤ dt.month ∧ dt.month ≤ 12 ∧
    1 ≤ dt.day ∧ dt.day ≤ daysInMonth dt.year dt.month ∧
    dt.hour < 24 ∧ dt.minute < 60 ∧ dt.second < 60 ∧ dt.microsecond < 1000000 := by
  simp only [PyDatetime.valid, Bool.and_eq_true, decide_eq_true_eq] at h
  tauto

theorem dtTruncMs_valid {dt : PyDatetime} (h : dt.valid = true) :
    (dtTruncMs dt).valid = true := by
  obtain ⟨h1, h2, h3, h4, h5, h6, h7, h8, h9, h10⟩ := PyDatetime.valid_fields h
  simp only [PyDatetime.valid, dtTruncMs, Bool.and_eq_true, decide_eq_true_eq]
  refine ⟨⟨⟨⟨⟨⟨⟨⟨⟨h1, h2⟩, h3⟩, h4⟩, h5⟩, h6⟩, h7⟩, h8⟩, h9⟩, ?_⟩
  omega

theorem packDatetime_ok {dt : PyDatetime} (h : dt.valid = true) :
    packDatetime dt = .ok (u16be dt.year ++ [dt.month, dt.day, dt.hour, dt.minute,
      dt.second] ++ u16be (dt.microsecond / 1000)) := by
  obtain ⟨h1, h2, h3, h4, h5, h6, h7, h8, h9, h10⟩ := PyDatetime.valid_fields h
  have hmo : dt.month < 256 := by omega
  have hd : dt.day < 256 := by
    have : daysInMonth dt.year dt.month ≤ 31 := by
      unfold daysInMonth; split <;> [split; skip] <;> [omega; omega; split <;> omega]
    omega
  rw [packDatetime]
  rw [packU16_ok (by omega), bind_ok, packU8_ok hmo, bind_ok, packU8_ok hd, bind_ok,
    packU8_ok (by omega), bind_ok, packU8_ok (by omega), bind_ok,
    packU8_ok (by omega), bind_ok, packU16_ok (by omega), bind_ok]
  rfl

theorem rdDatetime_append {dt : PyDatetime} (h : dt.valid = true) (rest : List Byte) :
    rdDatetime (u16be dt.year ++ [dt.month, dt.day, dt.hour, dt.minute, dt.second] ++
      u16be (dt.microsecond / 1000) ++ rest) = .ok (dtTruncMs dt, rest) := by
  obtain ⟨h1, h2, h3, h4, h5, h6, h7, h8, h9, h10⟩ := PyDatetime.valid_fields h
  have hv := dtTruncMs_valid h
  simp only [List.append_assoc, List.cons_append, List.singleton_append, List.nil_append]
  simp only [rdDatetime, rdU16_append (show dt.year < 65536 by omega), bind_ok,
    rdU8_cons, rdU16_append (show dt.microsecond / 1000 < 65536 by omega)]
  simp only [mkDatetime, dtTruncMs] at hv ⊢
  simp only [hv, if_pos]
  rfl

/-! ## Lemmas about the dict lookups -/

theorem invLookup_eq_none [BEq α] [LawfulBEq α] {t : List (String × α)} {c : α}
    (h : ∀ kv ∈ t, kv.2 ≠ c) : invLookup t c = none := by
  have hn : t.reverse.find? (fun kv => kv.2 == c) = none :=
    List.find?_eq_none.mpr (fun x hx => by
      simpa using h x (List.mem_reverse.mp hx))
  simp [invLookup, hn]

theorem invLookup_of_mem [BEq α] [LawfulBEq α] {t : List (String × α)} {k : String}
    {c : α} (hnd : (t.map (fun kv => kv.2)).Nodup) (hmem : (k, c) ∈ t) :
    invLookup t c = some k := by
  induction t with
  | nil => cases hmem
  | cons kv0 t ih =>
    simp only [List.map_cons, List.nodup_cons] at hnd
    unfold invLookup
    rw [List.reverse_cons, List.find?_append]
    rcases List.mem_cons.mp hmem with heq | hmem2
    · have hv : kv0.2 = c := by rw [← heq]
      have hk : kv0.1 = k := by rw [← heq]
      have hnone : t.reverse.find? (fun kv => kv.2 == c) = none :=
        List.find?_eq_none.mpr (fun x hx => by
          simp only [beq_iff_eq, decide_eq_true_eq]
          intro hxc
          exact hnd.1 (List.mem_map.mpr
            ⟨x, List.mem_reverse.mp hx, hxc.trans hv.symm⟩))
      rw [hnone]
      simp [List.find?, hv, hk]
    · have hih := ih hnd.2 hmem2
      unfold invLookup at hih
      rcases hfind : t.reverse.find? (fun kv => kv.2 == c) with _ | x
      · rw [hfind] at hih; cases hih
      · rw [hfind] at hih
        simp only [Option.map] at hih
        rw [hfind]
        simp [Option.or, hih]

theorem invGet_of_mem [BEq α] [LawfulBEq α] {t : List (String × α)} {k : String}
    {c : α} (hnd : (t.map (fun kv => kv.2)).Nodup) (hmem : (k, c) ∈ t) :
    invGet t c = .ok k := by
  simp [invGet, invLookup_of_mem hnd hmem]

theorem invGet_err [BEq α] [LawfulBEq α] {t : List (String × α)} {c : α}
    (h : ∀ kv ∈ t, kv.2 ≠ c) :
    invGet t c = .error (.keyErr "unknown enumerated value") := by
  simp [invGet, invLookup_eq_none h]

theorem dictGet_mem [BEq κ] [LawfulBEq κ] {t : List (κ × α)} {k : κ} {v : α}
    (h : dictGet t k = some v) : (k, v) ∈ t := by
  unfold dictGet at h
  rcases hf : t.find? (fun kv => kv.1 == k) with _ | kv
  · rw [hf] at h; cases h
  · rw [hf] at h
    simp only [Option.map, Option.some.injEq] at h
    have hm := List.mem_of_find?_eq_some hf
    have hp := List.find?_some hf
    simp only [beq_iff_eq] at hp
    have : kv = (k, v) := Prod.ext hp h
    rw [← this]
    exact hm

/-! ## Lemmas about the record-list codecs -/

theorem packListM_maps {f : α → Except PyErr (List Byte)} {g : α → List Byte}
    {l : List α} (h : ∀ x ∈ l, f x = .ok (g x)) :
    packListM f l = .ok (l.map g).flatten := by
  induction l with
  | nil => rfl
  | cons x xs ih =>
    rw [packListM, h x (List.mem_cons_self x xs), bind_ok,
      ih (fun y hy => h y (List.mem_cons_of_mem x hy)), bind_ok]
    simp [pure_eq_ok]

theorem rdList_encode {g : α → List Byte} {rd : List Byte → Except PyErr (α × List Byte)}
    {l : List α} (h : ∀ x ∈ l, ∀ rest, rd (g x ++ rest) = .ok (x, rest)) :
    ∀ rest, rdList rd l.length ((l.map g).flatten ++ rest) = .ok (l, rest) := by
  induction l with
  | nil => intro rest; simp [rdList]
  | cons x xs ih =>
    intro rest
    rw [List.map_cons, List.flatten_cons, List.length_cons]
    simp only [rdList, List.append_assoc]
    rw [h x (List.mem_cons_self x xs), bind_ok,
      ih (fun y hy => h y (List.mem_cons_of_mem x hy)) rest, bind_ok]
    rfl

theorem packFIRQuality_ok {q : FIRQualityRecord} (h1 : q.score < 256)
    (h2 : q.algo_vendor_id.length = 2) (h3 : q.algo_id.length = 2) :
    packFIRQuality q = .ok ([q.score] ++ q.algo_vendor_id ++ q.algo_id) := by
  rw [packFIRQuality, packU8_ok h1, bind_ok, packBytes_exact h2, packBytes_exact h3]
  rfl

theorem rdFIRQuality_encode {q : FIRQualityRecord}
    (h2 : q.algo_vendor_id.length = 2) (h3 : q.algo_id.length = 2) (rest : List Byte) :
    rdFIRQuality (([q.score] ++ q.algo_vendor_id ++ q.algo_id) ++ rest) = .ok (q, rest) := by
  simp only [List.append_assoc]
  simp only [rdFIRQuality, rdU8_append, bind_ok, rdTake_append h2, rdTake_append h3,
    pure_eq_ok]

theorem packFIRCert_ok {c : FIRCertificationRecord}
    (h2 : c.authority_id.length = 2) (h3 : c.scheme_id.length = 1) :
    packFIRCert c = .ok (c.authority_id ++ c.scheme_id) := by
  rw [packFIRCert, packBytes_exact h2, packBytes_exact h3]

theorem rdFIRCert_encode {c : FIRCertificationRecord}
    (h2 : c.authority_id.length = 2) (h3 : c.scheme_id.length = 1) (rest : List Byte) :
    rdFIRCert ((c.authority_id ++ c.scheme_id) ++ rest) = .ok (c, rest) := by
  simp only [List.append_assoc]
  simp only [rdFIRCert, rdTake_append h2, bind_ok, rdTake_append h3, pure_eq_ok]

theorem packLandmark_ok {p : FACLandmarkPoint} (h1 : p.point_type < 256)
    (h2 : p.point_code < 256) (h3 : p.x < 65536) (h4 : p.y < 65536) (h5 : p.z < 65536) :
    packLandmark p = .ok ([p.point_type] ++ [p.point_code] ++ u16be p.x ++
      u16be p.y ++ u16be p.z) := by
  rw [packLandmark, packU8_ok h1, bind_ok, packU8_ok h2, bind_ok, packU16_ok h3,
    bind_ok, packU16_ok h4, bind_ok, packU16_ok h5, bind_ok]
  rfl

theorem rdLandmark_encode {p : FACLandmarkPoint}
    (h3 : p.x < 65536) (h4 : p.y < 65536) (h5 : p.z < 65536) (rest : List Byte) :
    rdLandmark (([p.point_type] ++ [p.point_code] ++ u16be p.x ++ u16be p.y ++
      u16be p.z) ++ rest) = .ok (p, rest) := by
  simp only [List.append_assoc]
  simp only [rdLandmark, rdU8_append, bind_ok, rdU16_append h3, rdU16_append h4,
    rdU16_append h5, pure_eq_ok]

theorem packFACQuality_ok {q : FACQualityRecord} (h1 : q.score < 256)
    (h2 : q.algo_vendor_id.length = 2) (h3 : q.algo_id.length = 2) :
    packFACQuality q = .ok ([q.score] ++ q.algo_vendor_id ++ q.algo_id) := by
  rw [packFACQuality, packU8_ok h1, bind_ok, packBytes_exact h2, packBytes_exact h3]
  rfl

/-! ## Lemmas about the property mask -/

theorem foldl_lor_shift (l : List Nat) : ∀ a : Nat,
    List.foldl (· ||| ·) a l = a ||| List.foldl (· ||| ·) 0 l := by
  induction l with
  | nil => intro a; simp
  | cons x xs ih =>
    intro a
    simp only [List.foldl]
    rw [ih (a ||| x), ih (0 ||| x)]
    simp [Nat.lor_assoc]

theorem orAll_and_zero {l : List Nat} {v : Nat} (h : ∀ x ∈ l, x &&& v = 0) :
    List.foldl (· ||| ·) 0 l &&& v = 0 := by
  induction l with
  | nil => simp
  | cons x xs ih =>
    simp only [List.foldl]
    rw [foldl_lor_shift, Nat.and_distrib_right, Nat.zero_or,
      h x (List.mem_cons_self x xs),
      ih (fun y hy => h y (List.mem_cons_of_mem x hy))]
    simp

theorem orFilter_and {t : List (String × Nat)} {p : (String × Nat) → Bool}
    {k : String} {v : Nat} (hmem : (k, v) ∈ t) (hnd : t.Nodup)
    (hself : v &&& v = v)
    (hothers : ∀ kv ∈ t, kv ≠ (k, v) → kv.2 &&& v = 0) :
    (List.foldl (· ||| ·) 0 ((t.filter p).map (fun kv => kv.2))) &&& v =
      if p (k, v) then v else 0 := by
  induction t with
  | nil => cases hmem
  | cons kv0 t ih =>
    simp only [List.nodup_cons] at hnd
    rcases List.mem_cons.mp hmem with heq | hmem2
    · subst heq
      have hzero : (List.foldl (· ||| ·) 0 ((t.filter p).map (fun kv => kv.2))) &&& v = 0 :=
        orAll_and_zero (fun x hx => by
          obtain ⟨kv, hkv, hkvx⟩ := List.mem_map.mp hx
          have hkvt := List.mem_of_mem_filter hkv
          subst hkvx
          exact hothers kv (List.mem_cons_of_mem _ hkvt)
            (fun hc => hnd.1 (hc ▸ hkvt)))
      by_cases hp : p (k, v)
      · have hl : List.filter p ((k, v) :: t) = (k, v) :: List.filter p t := by
          simp [List.filter_cons, hp]
        rw [hl, List.map_cons]
        simp only [List.foldl]
        rw [foldl_lor_shift, Nat.and_distrib_right, Nat.zero_or, hself, hzero, hp]
        simp
      · have hl : List.filter p ((k, v) :: t) = List.filter p t := by
          simp [List.filter_cons, hp]
        rw [hl, hzero]
        simp [hp]
    · have hne : kv0 ≠ (k, v) := fun hc => hnd.1 (hc ▸ hmem2)
      have hih := ih hmem2 hnd.2
        (fun kv hkv => hothers kv (List.mem_cons_of_mem _ hkv))
      by_cases hp : p kv0
      · have hl : List.filter p (kv0 :: t) = kv0 :: List.filter p t := by
          simp [List.filter_cons, hp]
        rw [hl, List.map_cons]
        simp only [List.foldl]
        rw [foldl_lor_shift, Nat.and_distrib_right, Nat.zero_or,
          hothers kv0 (List.mem_cons_self kv0 t) hne, hih]
        simp
      · have hl : List.filter p (kv0 :: t) = List.filter p t := by
          simp [List.filter_cons, hp]
        rw [hl]
        exact hih

theorem maskValue_and {mask : List String} {k : String} {v : Nat}
    (hmem : (k, v) ∈ PROPERTY_FLAGS) :
    maskValue mask &&& v = if mask.contains k then v else 0 := by
  have hnd : PROPERTY_FLAGS.Nodup := by decide
  have hpair : ∀ a ∈ PROPERTY_FLAGS, ∀ b ∈ PROPERTY_FLAGS, a ≠ b → a.2 &&& b.2 = 0 := by
    decide
  have hself : ∀ a ∈ PROPERTY_FLAGS, a.2 &&& a.2 = a.2 := by decide
  have h := orFilter_and (p := fun kv => mask.contains kv.1) hmem hnd
    (hself (k, v) hmem)
    (fun kv hkv hne => hpair kv hkv (k, v) hmem hne)
  exact h

theorem map_fst_filter_key {t : List (String × Nat)} {q : String → Bool} :
    (t.filter (fun kv => q kv.1)).map (fun kv => kv.1) =
      (t.map (fun kv => kv.1)).filter q := by
  induction t with
  | nil => rfl
  | cons kv t ih => by_cases h : q kv.1 <;> simp [List.filter_cons, h, ih]

theorem filter_contains_of_sublist {l L : List String} (hsub : l.Sublist L)
    (hnd : L.Nodup) : L.filter (fun x => l.contains x) = l := by
  induction L generalizing l with
  | nil =>
    rw [List.sublist_nil.mp hsub]
    rfl
  | cons x L ih =>
    simp only [List.nodup_cons] at hnd
    rcases List.sublist_cons_iff.mp hsub with h | ⟨l2, rfl, hl2⟩
    · have hx : l.contains x = false := by
        rcases hc : l.contains x with _ | _
        · rfl
        · exact absurd (h.subset (List.mem_of_elem_eq_true hc)) hnd.1
      rw [List.filter_cons, hx]
      simp only [if_neg Bool.false_ne_true]
      exact ih h hnd.2
    · have hx : (x :: l2).contains x = true := by
        exact List.elem_eq_true_of_mem (List.mem_cons_self x l2)
      rw [List.filter_cons, hx, if_pos rfl]
      have hcongr : L.filter (fun y => (x :: l2).contains y) =
          L.filter (fun y => l2.contains y) :=
        List.filter_congr (fun y hy => by
          have hyx : y ≠ x := fun hc => hnd.1 (hc ▸ hy)
          simp [List.contains_cons, hyx])
      rw [hcongr, ih hl2 hnd.2]

/-! ## Dissection helpers for successful encodes -/

theorem bind_eq_ok {e : Except PyErr α} {f : α → Except PyErr β} {b : β}
    (h : (e >>= f) = .ok b) : ∃ a, e = .ok a ∧ f a = .ok b := by
  cases e with
  | ok a => exact ⟨a, rfl, h⟩
  | error _ => simp [Bind.bind, Except.bind] at h

theorem packU32_ok_inv {n : Nat} {bs : List Byte} (h : packU32 n = .ok bs) :
    bs = u32be n ∧ n < 4294967296 := by
  unfold packU32 at h
  split at h
  · cases h; exact ⟨rfl, by assumption⟩
  · cases h

theorem packU16_ok_inv {n : Nat} {bs : List Byte} (h : packU16 n = .ok bs) :
    bs = u16be n ∧ n < 65536 := by
  unfold packU16 at h
  split at h
  · cases h; exact ⟨rfl, by assumption⟩
  · cases h

theorem packU8_ok_inv {n : Nat} {bs : List Byte} (h : packU8 n = .ok bs) :
    bs = [n] ∧ n < 256 := by
  unfold packU8 at h
  split at h
  · cases h; exact ⟨rfl, by assumption⟩
  · cases h

theorem mapFrames_forall2 {f : α → Except PyErr (List Byte)} {l : List α}
    {bs : List (List Byte)} (h : mapFrames f l = .ok bs) :
    List.Forall₂ (fun x b => f x = .ok b) l bs := by
  induction l generalizing bs with
  | nil =>
    unfold mapFrames at h
    cases h
    exact List.Forall₂.nil
  | cons x xs ih =>
    unfold mapFrames at h
    obtain ⟨b, hb, h⟩ := bind_eq_ok h
    obtain ⟨rest, hrest, h⟩ := bind_eq_ok h
    cases h
    exact List.Forall₂.cons hb (ih hrest)

/-- Read a big-endian 32-bit length field at a byte offset of an encoded
container (the spec's way of naming a length field inside a file). -/
def getU32 (bs : List Byte) (off : Nat) : Nat := beVal ((bs.drop off).take 4)

/-- Read a big-endian 16-bit field at a byte offset. -/
def getU16 (bs : List Byte) (off : Nat) : Nat := beVal ((bs.drop off).take 2)

theorem getU32_at {pre rest : List Byte} {n off : Nat} (hoff : pre.length = off)
    (hn : n < 4294967296) : getU32 (pre ++ (u32be n ++ rest)) off = n := by
  subst hoff
  unfold getU32
  rw [List.drop_left, show (4 : Nat) = (u32be n).length from rfl, List.take_left]
  exact beVal_u32be hn

theorem getU16_at {pre rest : List Byte} {n off : Nat} (hoff : pre.length = off)
    (hn : n < 65536) : getU16 (pre ++ (u16be n ++ rest)) off = n := by
  subst hoff
  unfold getU16
  rw [List.drop_left, show (2 : Nat) = (u16be n).length from rfl, List.take_left]
  exact beVal_u16be hn

/-! ## Test fixtures: small concrete images and containers -/

/-- A fixed capture datetime. -/
def fixDT : PyDatetime := ⟨2005, 12, 15, 17, 35, 19, 0⟩

/-- A small valid finger representation header. -/
def fixFIRHeader : FIRRepresentationHeader :=
  ⟨0, fixDT, [0], [171, 205], [18, 52], [], [], .str "Left index finger", 1,
   .str "PPI", 500, 500, 500, 500, .str "RAW", .str "Live-scan rolled"⟩

/-- A 2-by-2 raw finger image carrying the fixture header. -/
def fixFIRImage : FIRImage := ⟨"L", 2, 2, [9, 8, 7, 6], [], fixFIRHeader⟩

/-- The encoded frame of the fixture image (no certification block). -/
def fixFIRFrame : List Byte := (firSaveFrame fixFIRImage false).toOption.getD []

/-! ## C5: property-mask encoding -/

theorem foldl_filter_or (p : (String × Nat) → Bool) (t : List (String × Nat)) :
    ∀ a : Nat, ((t.filter p).map (fun kv => kv.2)).foldl (· ||| ·) a =
      t.foldl (fun a kv => if p kv then a ||| kv.2 else a) a := by
  induction t with
  | nil => intro a; rfl
  | cons kv t ih =>
    intro a
    by_cases h : p kv <;> simp [List.filter_cons, h, List.foldl, ih]

/-- C5: encoding the property-mask flag set containing only GLASSES yields
the three big-endian bytes 00 00 02; the set GLASSES, BEARD,
LEFT_EYE_PATCH, DARK_GLASSES yields 00 02 8A; and in general the encoded
mask value is the bitwise OR of the bit values of exactly the named flags
present in the set: it equals the OR-fold over the table restricted to the
present flags, and each table bit is set in it precisely when the flag is
present. -/
theorem claim_C5 :
    (u32be (maskValue ["GLASSES"])).drop 1 = [0, 0, 2] ∧
    (u32be (maskValue ["GLASSES", "BEARD", "LEFT_EYE_PATCH", "DARK_GLASSES"])).drop 1
      = [0, 2, 138] ∧
    (∀ mask : List String,
      maskValue mask = PROPERTY_FLAGS.foldl
        (fun a kv => if mask.contains kv.1 then a ||| kv.2 else a) 0) ∧
    (∀ mask : List String, ∀ kv ∈ PROPERTY_FLAGS,
      maskValue mask &&& kv.2 = if mask.contains kv.1 then kv.2 else 0) :=
  ⟨by decide, by decide,
   fun _ => foldl_filter_or _ PROPERTY_FLAGS 0,
   fun _ kv hkv => maskValue_and (k := kv.1) (v := kv.2) hkv⟩

/-! ## C6: enumeration totality -/

/-- The totality contract of a table's inverse lookup as the decoders use
it: a wire code outside the table's values raises the unknown-value
KeyError, and a code in the table decodes to its symbolic name. -/
def enumTotal [BEq α] [LawfulBEq α] (t : List (String × α)) : Prop :=
  (∀ c : α, c ∉ t.map (fun kv => kv.2) →
    invGet t c = .error (.keyErr "unknown enumerated value")) ∧
  (∀ kv ∈ t, invGet t kv.2 = .ok kv.1)

theorem enumTotal_of_nodup [BEq α] [LawfulBEq α]
    {t : List (String × α)} (hnd : (t.map (fun kv => kv.2)).Nodup) : enumTotal t := by
  constructor
  · intro c hc
    exact invGet_err (fun kv hkv hce => hc (List.mem_map.mpr ⟨kv, hkv, hce⟩))
  · intro kv hkv
    exact invGet_of_mem hnd hkv

/-- C6: every enumerated field of both families decodes total-and-faithful:
for each table, a wire code not among the table values fails with the
unknown-value KeyError (never a silent default), and each tabled code
decodes to the symbol that encodes to it; concretely, decoding a finger
frame whose position byte carries the untabled code 11 fails with that
error. -/
theorem claim_C6 :
    enumTotal GENDER ∧ enumTotal EYE_COLOUR ∧ enumTotal HAIR_COLOUR ∧
    enumTotal EXPRESSION ∧ enumTotal FACE_IMAGE_TYPE ∧ enumTotal IMAGE_DATA_TYPE ∧
    enumTotal SOURCE_TYPE ∧ enumTotal POSITION ∧ enumTotal UNIT ∧
    enumTotal COMPRESSION ∧ enumTotal IMPRESSION ∧
    firReadHeader false (fixFIRFrame.set 19 11) =
      .error (.keyErr "unknown enumerated value") :=
  ⟨enumTotal_of_nodup (by decide), enumTotal_of_nodup (by decide),
   enumTotal_of_nodup (by decide), enumTotal_of_nodup (by decide),
   enumTotal_of_nodup (by decide), enumTotal_of_nodup (by decide),
   enumTotal_of_nodup (by decide), enumTotal_of_nodup (by decide),
   enumTotal_of_nodup (by decide), enumTotal_of_nodup (by decide),
   enumTotal_of_nodup (by decide), by rfl⟩

/-! ## C7: out-of-range seeks -/

/-- C7: for both families, a seek to an index outside [0, frame count)
fails with the EOFError raised by the range check, which runs before any
mutation: the result pairs the error with the navigator state exactly as
it was, so the position, the offset cache and the header cache are
unchanged. -/
theorem claim_C7 (ctx : FIRCtx) (s : FIRNav) (i : Int) (ctx2 : FACCtx)
    (s2 : FACNav) (j : Int) (h : i < 0 ∨ (ctx.nFrames : Int) ≤ i)
    (h2 : j < 0 ∨ (ctx2.nFrames : Int) ≤ j) :
    firSeek ctx s i = .error (.eofErr "attempt to seek outside sequence", s) ∧
    facSeek ctx2 s2 j = .error (.eofErr "attempt to seek outside sequence", s2) := by
  constructor
  · unfold firSeek firSeekCheck
    rw [if_pos h]
  · unfold facSeek facSeekCheck
    rw [if_pos h2]

theorem claim_C7_witness :
    firSeek ⟨[], false, 1⟩ ⟨[], [], -1, 16, none, "", (0, 0), none⟩ 1 =
      .error (.eofErr "attempt to seek outside sequence",
        ⟨[], [], -1, 16, none, "", (0, 0), none⟩) ∧
    facSeek ⟨[], "010", 1⟩ ⟨[], [], -1, 14, none, "", (0, 0), none⟩ 2 =
      .error (.eofErr "attempt to seek outside sequence",
        ⟨[], [], -1, 14, none, "", (0, 0), none⟩) :=
  claim_C7 ⟨[], false, 1⟩ ⟨[], [], -1, 16, none, "", (0, 0), none⟩ 1
    ⟨[], "010", 1⟩ ⟨[], [], -1, 14, none, "", (0, 0), none⟩ 2
    (Or.inr (by decide)) (Or.inr (by decide))

/-! ## C10: integer-valued enumerated fields in the finger encoder -/

/-- C10 counterexample: the claim says every integer compression value is
written to the wire with no error, but an integer
image_compression_algo never reaches the pack line: the encoder-selection
chain compares it with the algorithm names, falls through to the failure
branch, and raises while building the message. -/
theorem claim_C10_counterexample :
    firSaveFrame { fixFIRImage with header :=
        { fixFIRHeader with image_compression_algo := .int 0 } } false =
      .error (.typeErr "can only concatenate str to str") := by rfl

/-- C10 amended: position, scale_units and impression_type accept raw
integers with no table lookup, and such an integer reaches the wire
unchanged when it fits the one-byte struct format, even when it is not in
the table (bytes 19, 21 and 32 of the fixture frame carry the untabled
codes 11, 9 and 77); an integer 256 or larger fails struct's range check,
a string not in the table fails with a KeyError, and an integer
image_compression_algo always fails at encoder selection. -/
theorem claim_C10_amended :
    (∀ t : List (String × Nat), ∀ n : Nat, enumWire t (.int n) = .ok n) ∧
    (∀ n : Nat, n < 256 → packU8 n = .ok [n]) ∧
    (∀ n : Nat, 256 ≤ n →
      packU8 n = .error (.structErr "ubyte format requires 0 <= number <= 255")) ∧
    (∀ t : List (String × Nat), ∀ s : String, dictGet t s = none →
      enumWire t (.str s) = .error (.keyErr s)) ∧
    (∀ im : FIRImage, ∀ cf : Bool, ∀ n : Nat,
      im.header.image_compression_algo = .int n →
      firSaveFrame im cf = .error (.typeErr "can only concatenate str to str")) ∧
    (∃ fb, firSaveFrame { fixFIRImage with header := { fixFIRHeader with
        position := .int 11, scale_units := .int 9, impression_type := .int 77 } }
        false = .ok fb ∧
      fb.get? 19 = some 11 ∧ fb.get? 21 = some 9 ∧ fb.get? 32 = some 77) := by
  refine ⟨fun t n => rfl, fun n h => packU8_ok h, ?_, ?_, ?_, ?_⟩
  · intro n h
    unfold packU8
    rw [if_neg (by omega)]
  · intro t s h
    simp [enumWire, h]
  · intro im cf n h
    unfold firSaveFrame firEncodeImageData
    rw [h]
    rfl
  · exact ⟨_, rfl, rfl, rfl, rfl⟩

theorem claim_C10_amended_witness :
    enumWire POSITION (.int 300) = .ok 300 ∧
    packU8 255 = .ok [255] ∧
    packU8 256 = .error (.structErr "ubyte format requires 0 <= number <= 255") ∧
    enumWire UNIT (.str "inches") = .error (.keyErr "inches") ∧
    firSaveFrame { fixFIRImage with header :=
        { fixFIRHeader with image_compression_algo := .int 3 } } false =
      .error (.typeErr "can only concatenate str to str") :=
  ⟨(claim_C10_amended.1 POSITION 300),
   (claim_C10_amended.2.1 255 (by decide)),
   (claim_C10_amended.2.2.1 256 (by decide)),
   (claim_C10_amended.2.2.2.1 UNIT "inches" (by decide)),
   (claim_C10_amended.2.2.2.2.1 _ false 3 rfl)⟩

/-! ## C3: the forward walk of the navigator -/

/-- A 3-frame fixture container. -/
def fix3File : List Byte :=
  (firSaveAll [fixFIRImage, fixFIRImage, fixFIRImage]).toOption.getD []

set_option maxRecDepth 8000

/-- C3 (code bug): opening the 3-frame fixture container succeeds,
positioned at frame 0 with only frame 0's offset resolved; a direct seek
to frame 2 then fails with IndexError inside the forward walk.  The loop
computes the next chain offset from `_frame_pos[frame]` with `frame` the
target index while only two offsets are resolved, instead of using the
offset of the frame just decoded, so the claimed walk-and-cache
resolution never completes and the later cache-hit move can never
happen. -/
theorem claim_C3 :
    ((firOpen fix3File).map (fun p => (p.1.nFrames, p.2.frame, p.2.framePos))
      = .ok (3, 0, [16])) ∧
    ((match firOpen fix3File with
      | .ok (ctx, s) =>
        match firSeek ctx s 2 with
        | .error (e, s2) => some (e, s2.framePos)
        | .ok _ => none
      | .error _ => none)
      = some (.indexErr "list index out of range", [16, 61])) := by
  exact ⟨rfl, by decide⟩

/-! ## C4: the three face versions -/

/-- A face header with every version-010 field supplied. -/
def fixFACHeader : FACHeader :=
  { landmark_points := some [⟨1, 2, 3, 4, 5⟩], gender := some "M",
    eye_colour := some "BLUE", hair_colour := some "BLACK",
    property_mask := some ["GLASSES"], expression := some "NEUTRAL",
    pose_yaw := some 0, pose_pitch := some (-5), pose_roll := some 0,
    pose_uncertainty_yaw := some 0, pose_uncertainty_pitch := some 0,
    pose_uncertainty_roll := some 0, face_image_type := some "FULL_FRONTAL",
    image_data_type := some "JPEG", source_type := some "STATIC_CAMERA",
    device_type := some [18, 52], quality := some [0, 0] }

/-- A face image fixture with a 5-byte external JPEG payload. -/
def fixFACImage : FACImage := ⟨"RGB", 20, 30, [255, 216, 1, 2, 3], fixFACHeader⟩

/-- The fixture image saved as a version-010 container. -/
def fixFACFile : List Byte := (facSave fixDT fixFACImage "010").toOption.getD []

/-- A well-formed version-030 face container: a 17-byte general header
(magic, tag 030, total length 55, one representation, certification flag
0, temporal semantics 0) followed by one 38-byte frame in the 030 frame
layout. -/
def fix030File : List Byte :=
  [70, 65, 67, 0, 48, 51, 48, 0] ++ u32be 55 ++ u16be 1 ++ [0] ++ u16be 0 ++
  (u32be 38 ++ [7, 228, 1, 2, 3, 4, 5, 0, 0] ++ [0, 0, 0, 0, 0] ++ [0] ++
   [0, 0, 1, 1, 2, 0, 0, 0, 0, 0, 0, 0, 0, 0, 0, 0, 0] ++ [255, 216])

/-- A face container carrying the version tag 020. -/
def fix020File : List Byte :=
  [70, 65, 67, 0, 48, 50, 48, 0] ++ u32be 20 ++ u16be 1 ++ [0, 0, 0, 0, 0, 0]

/-- C4 (code bug): only version 010 actually opens.  A version-030
container fails in _open, which unpacks the 9-byte format `>IH?H` from the
6-byte slice `header[8:14]`; a version-020 container passes the version
check but no branch stores `nb_facial_images`, so the frame-count line
fails with KeyError.  The fixture 010 container opens and decodes its
first frame's representation header, including the image-information
fields (pixel mode and size). -/
theorem claim_C4 :
    facOpen fix030File = .error (.structErr "unpack requires a buffer of 9 bytes") ∧
    facOpen fix020File = .error (.keyErr "nb_facial_images") ∧
    ∃ ctx s, facOpen fixFACFile = .ok (ctx, s) ∧ ctx.nFrames = 1 ∧ s.frame = 0 ∧
      s.mode = "RGB" ∧ s.size = (20, 30) := by
  exact ⟨rfl, rfl, _, _, rfl, rfl, rfl, rfl, rfl⟩

/-! ## C8: the multi-frame writer contract -/

theorem get?_at {pre : List Byte} {b : Byte} {rest : List Byte} {i : Nat}
    (h : pre.length = i) : (pre ++ (b :: rest)).get? i = some b := by
  subst h
  rw [List.get?_eq_getElem?, List.getElem?_append_right (le_refl _)]
  simp

/-- C8: whenever the multi-frame finger writer succeeds, the emitted bytes
are the general header followed by the per-frame buffers in input order,
where each buffer is the frame encoding of its input pair under the
collective certification flag; the certification byte (offset 14) is 1
exactly when some frame has a non-empty certification list, the position
byte (offset 15) is the number of distinct position values, and the
frame-count field (offset 12) is the number of frames. -/
theorem claim_C8 {ims : List FIRImage} {out : List Byte}
    (h : firSaveAll ims = .ok out) :
    ∃ bufs,
      List.Forall₂ (fun im b => firSaveFrame im
        (ims.any (fun im2 => !im2.header.certification_records.isEmpty)) = .ok b)
        ims bufs ∧
      out = [70, 73, 82, 0] ++ [48, 50, 48, 0] ++
        u32be (16 + (bufs.map List.length).sum) ++ u16be ims.length ++
        [if ims.any (fun im => !im.header.certification_records.isEmpty) then 1 else 0]
        ++ [((ims.map (fun im => im.header.position)).dedup).length] ++ bufs.flatten ∧
      out.get? 14 =
        some (if ims.any (fun im => !im.header.certification_records.isEmpty)
          then 1 else 0) ∧
      out.get? 15 = some ((ims.map (fun im => im.header.position)).dedup).length ∧
      getU16 out 12 = ims.length := by
  simp only [firSaveAll] at h
  obtain ⟨bufs, hbufs, h⟩ := bind_eq_ok h
  obtain ⟨lenb, hlen, h⟩ := bind_eq_ok h
  obtain ⟨nbb, hnb, h⟩ := bind_eq_ok h
  obtain ⟨npb, hnp, h⟩ := bind_eq_ok h
  obtain ⟨hlenb, hL⟩ := packU32_ok_inv hlen
  obtain ⟨hnbb, hn⟩ := packU16_ok_inv hnb
  obtain ⟨hnpb, hnp2⟩ := packU8_ok_inv hnp
  have hlens : ims.length = bufs.length := (mapFrames_forall2 hbufs).length_eq
  simp only [pure_eq_ok, Except.ok.injEq] at h
  subst hlenb hnbb hnpb
  refine ⟨bufs, mapFrames_forall2 hbufs, ?_, ?_, ?_, ?_⟩
  · rw [← h, hlens]
    simp [packBool]
  · rw [← h]
    have : ([70, 73, 82, 0] : List Byte) ++ [48, 50, 48, 0] ++
        u32be (16 + (bufs.map List.length).sum) ++ u16be bufs.length ++
        packBool (ims.any fun im => !im.header.certification_records.isEmpty) ++
        [((ims.map (fun im => im.header.position)).dedup).length] ++ bufs.flatten =
        ([70, 73, 82, 0] ++ [48, 50, 48, 0] ++
          u32be (16 + (bufs.map List.length).sum) ++ u16be bufs.length) ++
        (((if ims.any (fun im => !im.header.certification_records.isEmpty)
            then 1 else 0)) ::
          ([((ims.map (fun im => im.header.position)).dedup).length] ++
            bufs.flatten)) := by
      simp [packBool, List.append_assoc]
    rw [this]
    exact get?_at (by simp [u32be, u16be])
  · rw [← h]
    have : ([70, 73, 82, 0] : List Byte) ++ [48, 50, 48, 0] ++
        u32be (16 + (bufs.map List.length).sum) ++ u16be bufs.length ++
        packBool (ims.any fun im => !im.header.certification_records.isEmpty) ++
        [((ims.map (fun im => im.header.position)).dedup).length] ++ bufs.flatten =
        ([70, 73, 82, 0] ++ [48, 50, 48, 0] ++
          u32be (16 + (bufs.map List.length).sum) ++ u16be bufs.length ++
          packBool (ims.any fun im => !im.header.certification_records.isEmpty)) ++
        ((((ims.map (fun im => im.header.position)).dedup).length) ::
          bufs.flatten) := by
      simp [List.append_assoc]
    rw [this]
    exact get?_at (by simp [u32be, u16be, packBool])
  · rw [← h]
    have : ([70, 73, 82, 0] : List Byte) ++ [48, 50, 48, 0] ++
        u32be (16 + (bufs.map List.length).sum) ++ u16be bufs.length ++
        packBool (ims.any fun im => !im.header.certification_records.isEmpty) ++
        [((ims.map (fun im => im.header.position)).dedup).length] ++ bufs.flatten =
        ([70, 73, 82, 0] ++ [48, 50, 48, 0] ++
          u32be (16 + (bufs.map List.length).sum)) ++
        (u16be bufs.length ++
          (packBool (ims.any fun im => !im.header.certification_records.isEmpty) ++
            ([((ims.map (fun im => im.header.position)).dedup).length] ++
              bufs.flatten))) := by
      simp [List.append_assoc]
    rw [this, hlens]
    exact getU16_at (by simp [u32be]) (hlens ▸ hn)

/-- The fixture two-frame container. -/
def fixAllFile : List Byte := (firSaveAll [fixFIRImage, fixFIRImage]).toOption.getD []

theorem claim_C8_witness :
    fixAllFile.get? 14 = some 0 ∧ fixAllFile.get? 15 = some 1 ∧
    getU16 fixAllFile 12 = 2 := by
  obtain ⟨bufs, hfa, hout, h14, h15, h12⟩ :=
    @claim_C8 [fixFIRImage, fixFIRImage] fixAllFile rfl
  exact ⟨by rw [h14]; rfl, by rw [h15]; rfl, h12⟩

/-! ## The explicit wire form of a successful finger-frame encode -/

theorem flatten_map_length {g : α → List Byte} {l : List α} {k : Nat}
    (h : ∀ x ∈ l, (g x).length = k) : ((l.map g).flatten).length = k * l.length := by
  induction l with
  | nil => simp
  | cons x xs ih =>
    simp only [List.map_cons, List.flatten_cons, List.length_append,
      h x (List.mem_cons_self x xs),
      ih (fun y hy => h y (List.mem_cons_of_mem x hy)), List.length_cons]
    ring

/-- The explicit wire bytes of a raw finger frame: length field,
representation header, pixels.  `pc`, `uc` and `ic` are the wire codes of
the three enumerated fields. -/
def firFrameWire (im : FIRImage) (cf : Bool) (pc uc ic : Nat) : List Byte :=
  u32be (4 + (37 + 5 * im.header.quality_records.length +
    (certBlock cf im.header.certification_records).length) +
    im.pixels.length) ++
  (u16be im.header.capture_datetime.year ++
    [im.header.capture_datetime.month, im.header.capture_datetime.day,
     im.header.capture_datetime.hour, im.header.capture_datetime.minute,
     im.header.capture_datetime.second] ++
    u16be (im.header.capture_datetime.microsecond / 1000) ++
   im.header.capture_device_technology_id ++
   im.header.capture_device_vendor_id ++
   im.header.capture_device_type_id ++
   [im.header.quality_records.length] ++
   (im.header.quality_records.map qualWire).flatten ++
   certBlock cf im.header.certification_records ++
   [pc] ++ [im.header.number] ++ [uc] ++
   u16be im.header.horizontal_scan_sampling_rate ++
   u16be im.header.vertical_scan_sampling_rate ++
   u16be im.header.horizontal_image_sampling_rate ++
   u16be im.header.vertical_image_sampling_rate ++
   [8] ++ [0] ++ [ic] ++ u16be im.width ++ u16be im.height ++
   u32be im.pixels.length) ++
  im.pixels

/-- The encoder writes a successful frame as the 4-byte length field, the
representation header, then the image data; this lemma computes that shape
for a raw frame whose header satisfies the wire bounds. -/
theorem firSaveFrame_eq {im : FIRImage} {p u ity : String} {pc uc ic : Nat} (cf : Bool)
    (halgo : im.header.image_compression_algo = .str "RAW")
    (hdt : im.header.capture_datetime.valid = true)
    (htech : im.header.capture_device_technology_id.length = 1)
    (hvend : im.header.capture_device_vendor_id.length = 2)
    (htyp : im.header.capture_device_type_id.length = 2)
    (hqc : im.header.quality_records.length < 256)
    (hq : ∀ q ∈ im.header.quality_records, q.score < 256 ∧
      q.algo_vendor_id.length = 2 ∧ q.algo_id.length = 2)
    (hcc : im.header.certification_records.length < 256)
    (hc : ∀ c ∈ im.header.certification_records, c.authority_id.length = 2 ∧
      c.scheme_id.length = 1)
    (hpos : im.header.position = .str p) (hpc : dictGet POSITION p = some pc)
    (hnum : im.header.number < 256)
    (hscale : im.header.scale_units = .str u) (huc : dictGet UNIT u = some uc)
    (himpr : im.header.impression_type = .str ity)
    (hic : dictGet IMPRESSION ity = some ic)
    (hr1 : im.header.horizontal_scan_sampling_rate < 65536)
    (hr2 : im.header.vertical_scan_sampling_rate < 65536)
    (hr3 : im.header.horizontal_image_sampling_rate < 65536)
    (hr4 : im.header.vertical_image_sampling_rate < 65536)
    (hw : im.width < 65536) (hh : im.height < 65536)
    (hdl : im.pixels.length < 4294967296)
    (hfl : 4 + (37 + 5 * im.header.quality_records.length +
      (certBlock cf im.header.certification_records).length) +
      im.pixels.length < 4294967296) :
    firSaveFrame im cf = .ok (firFrameWire im cf pc uc ic) := by
  have hdata : firEncodeImageData im = .ok (8, im.pixels) := by
    unfold firEncodeImageData
    rw [halgo]
    rfl
  have hqenc : packListM packFIRQuality im.header.quality_records = .ok
      ((im.header.quality_records.map qualWire).flatten) :=
    packListM_maps (g := qualWire)
      (fun q hqm =>
        packFIRQuality_ok (hq q hqm).1 (hq q hqm).2.1 (hq q hqm).2.2)
  have hcertb : packCertBlock cf im.header.certification_records =
      .ok (certBlock cf im.header.certification_records) := by
    cases cf
    · rfl
    · simp only [packCertBlock, if_true, certBlock]
      rw [packU8_ok hcc, bind_ok,
        packListM_maps (g := certWire)
          (fun c hcm => packFIRCert_ok (hc c hcm).1 (hc c hcm).2),
        bind_ok]
      rfl
  have hpcv : pc < 256 := by
    have hall : ∀ kv ∈ POSITION, kv.2 < 256 := by decide
    exact hall _ (dictGet_mem hpc)
  have hucv : uc < 256 := by
    have hall : ∀ kv ∈ UNIT, kv.2 < 256 := by decide
    exact hall _ (dictGet_mem huc)
  have hicv : ic < 256 := by
    have hall : ∀ kv ∈ IMPRESSION, kv.2 < 256 := by decide
    exact hall _ (dictGet_mem hic)
  have hposw : enumWire POSITION im.header.position = .ok pc := by
    rw [hpos]
    simp [enumWire, hpc]
  have hscalew : enumWire UNIT im.header.scale_units = .ok uc := by
    rw [hscale]
    simp [enumWire, huc]
  have hcompw : enumWire COMPRESSION im.header.image_compression_algo = .ok 0 := by
    rw [halgo]
    rfl
  have himprw : enumWire IMPRESSION im.header.impression_type = .ok ic := by
    rw [himpr]
    simp [enumWire, hic]
  have hrh : (u16be im.header.capture_datetime.year ++
      [im.header.capture_datetime.month, im.header.capture_datetime.day,
       im.header.capture_datetime.hour, im.header.capture_datetime.minute,
       im.header.capture_datetime.second] ++
      u16be (im.header.capture_datetime.microsecond / 1000) ++
      im.header.capture_device_technology_id ++
      im.header.capture_device_vendor_id ++
      im.header.capture_device_type_id ++
      [im.header.quality_records.length] ++
      (im.header.quality_records.map qualWire).flatten ++
      certBlock cf im.header.certification_records ++
      [pc] ++ [im.header.number] ++ [uc] ++
      u16be im.header.horizontal_scan_sampling_rate ++
      u16be im.header.vertical_scan_sampling_rate ++
      u16be im.header.horizontal_image_sampling_rate ++
      u16be im.header.vertical_image_sampling_rate ++
      [8] ++ [0] ++ [ic] ++ u16be im.width ++ u16be im.height ++
      u32be im.pixels.length).length =
      37 + 5 * im.header.quality_records.length +
        (certBlock cf im.header.certification_records).length := by
    have hql : ((im.header.quality_records.map qualWire).flatten).length =
        5 * im.header.quality_records.length :=
      flatten_map_length (g := qualWire)
        (fun q hqm => by
          simp [qualWire, List.length_append, (hq q hqm).2.1, (hq q hqm).2.2])
    simp [List.length_append, u16be, u32be, htech, hvend, htyp, hql]
    ring
  unfold firSaveFrame
  simp only [hdata, bind_ok, packDatetime_ok hdt, packU8_ok hqc, hqenc, hcertb,
    hposw, hscalew, hcompw, himprw, packU8_ok hpcv, packU8_ok hnum,
    packU8_ok hucv, packU16_ok hr1, packU16_ok hr2, packU16_ok hr3,
    packU16_ok hr4, packU8_ok (show (8 : Nat) < 256 by omega),
    packU8_ok (show (0 : Nat) < 256 by omega), packU8_ok hicv, packU16_ok hw,
    packU16_ok hh, packU32_ok hdl, packBytes_exact htech, packBytes_exact hvend,
    packBytes_exact htyp]
  rw [hrh, packU32_ok hfl, bind_ok]
  rw [firFrameWire]
  rfl

/-! ## The decoder applied to the wire form -/

theorem rdCertBlock_encode {cs : List FIRCertificationRecord} (cf : Bool)
    (hc : ∀ c ∈ cs, c.authority_id.length = 2 ∧ c.scheme_id.length = 1)
    (hcf : cf = false → cs = []) (rest : List Byte) :
    rdCertBlock cf (certBlock cf cs ++ rest) =
      .ok (cs, rest, if cf then 1 + 3 * cs.length else 0) := by
  cases cf
  · rw [hcf rfl]
    rfl
  · simp only [rdCertBlock, certBlock, if_true, List.append_assoc]
    rw [rdU8_append, bind_ok,
      rdList_encode (g := certWire)
        (fun c hcm rest2 => rdFIRCert_encode (hc c hcm).1 (hc c hcm).2 rest2) rest,
      bind_ok]
    rfl

theorem certBlock_length {cs : List FIRCertificationRecord} (cf : Bool)
    (hc : ∀ c ∈ cs, c.authority_id.length = 2 ∧ c.scheme_id.length = 1) :
    (certBlock cf cs).length = if cf then 1 + 3 * cs.length else 0 := by
  cases cf
  · rfl
  · simp only [certBlock, if_true, List.length_append, List.length_cons,
      List.length_nil]
    rw [flatten_map_length (g := certWire) (k := 3) (fun c hcm => by
      simp [certWire, List.length_append, (hc c hcm).1, (hc c hcm).2])]

/-- Reading back the wire form of a raw finger frame: every field returns
as encoded, except that the stored milliseconds come back in the
microsecond position and the length field carries the computed frame
length. -/
theorem firReadHeader_eq {im : FIRImage} {p u ity : String} {pc uc ic : Nat}
    (cf : Bool)
    (hdt : im.header.capture_datetime.valid = true)
    (htech : im.header.capture_device_technology_id.length = 1)
    (hvend : im.header.capture_device_vendor_id.length = 2)
    (htyp : im.header.capture_device_type_id.length = 2)
    (hq : ∀ q ∈ im.header.quality_records, q.score < 256 ∧
      q.algo_vendor_id.length = 2 ∧ q.algo_id.length = 2)
    (hc : ∀ c ∈ im.header.certification_records, c.authority_id.length = 2 ∧
      c.scheme_id.length = 1)
    (hcf : cf = false → im.header.certification_records = [])
    (hpc : dictGet POSITION p = some pc)
    (huc : dictGet UNIT u = some uc)
    (hic : dictGet IMPRESSION ity = some ic)
    (hr1 : im.header.horizontal_scan_sampling_rate < 65536)
    (hr2 : im.header.vertical_scan_sampling_rate < 65536)
    (hr3 : im.header.horizontal_image_sampling_rate < 65536)
    (hr4 : im.header.vertical_image_sampling_rate < 65536)
    (hw : im.width < 65536) (hh : im.height < 65536)
    (hdl : im.pixels.length < 4294967296)
    {L : Nat} (hL : L < 4294967296) :
    firReadHeader cf (u32be L ++
      ((u16be im.header.capture_datetime.year ++
        [im.header.capture_datetime.month, im.header.capture_datetime.day,
         im.header.capture_datetime.hour, im.header.capture_datetime.minute,
         im.header.capture_datetime.second] ++
        u16be (im.header.capture_datetime.microsecond / 1000)) ++
      (im.header.capture_device_technology_id ++
      (im.header.capture_device_vendor_id ++
      (im.header.capture_device_type_id ++
      ([im.header.quality_records.length] ++
      ((im.header.quality_records.map qualWire).flatten ++
      (certBlock cf im.header.certification_records ++
      ([pc] ++ ([im.header.number] ++ ([uc] ++
      (u16be im.header.horizontal_scan_sampling_rate ++
      (u16be im.header.vertical_scan_sampling_rate ++
      (u16be im.header.horizontal_image_sampling_rate ++
      (u16be im.header.vertical_image_sampling_rate ++
      ([8] ++ ([0] ++ ([ic] ++ (u16be im.width ++ (u16be im.height ++
      (u32be im.pixels.length ++
       im.pixels))))))))))))))))))))) =
    .ok (⟨L, dtTruncMs im.header.capture_datetime,
      im.header.capture_device_technology_id,
      im.header.capture_device_vendor_id,
      im.header.capture_device_type_id,
      im.header.quality_records, im.header.certification_records,
      .str p, im.header.number, .str u,
      im.header.horizontal_scan_sampling_rate,
      im.header.vertical_scan_sampling_rate,
      im.header.horizontal_image_sampling_rate,
      im.header.vertical_image_sampling_rate,
      .str "RAW", .str ity⟩,
      19 + 5 * im.header.quality_records.length +
        (if cf then 1 + 3 * im.header.certification_records.length else 0) + 22,
      ⟨L, 8, im.width, im.height, im.pixels.length⟩) := by
  have hposl : invGet POSITION pc = .ok p :=
    invGet_of_mem (by decide) (dictGet_mem hpc)
  have hucl : invGet UNIT uc = .ok u :=
    invGet_of_mem (by decide) (dictGet_mem huc)
  have hicl : invGet IMPRESSION ic = .ok ity :=
    invGet_of_mem (by decide) (dictGet_mem hic)
  unfold firReadHeader
  simp only [rdU32_append hL, bind_ok, rdDatetime_append hdt,
    rdTake_append htech, rdTake_append hvend, rdTake_append htyp, rdU8_append,
    rdList_encode (g := qualWire)
      (fun q hqm rest2 =>
        rdFIRQuality_encode (hq q hqm).2.1 (hq q hqm).2.2 rest2),
    rdCertBlock_encode cf hc hcf,
    rdU16_append hr1, rdU16_append hr2, rdU16_append hr3, rdU16_append hr4,
    rdU16_append hw, rdU16_append hh, rdU32_append hdl, hposl, hucl, hicl,
    show invGet COMPRESSION 0 = .ok "RAW" from rfl]
  rfl

/-! ## Length and mask facts used by the round trip -/

theorem firFrameWire_length {im : FIRImage} {pc uc ic : Nat} (cf : Bool)
    (htech : im.header.capture_device_technology_id.length = 1)
    (hvend : im.header.capture_device_vendor_id.length = 2)
    (htyp : im.header.capture_device_type_id.length = 2)
    (hq : ∀ q ∈ im.header.quality_records, q.score < 256 ∧
      q.algo_vendor_id.length = 2 ∧ q.algo_id.length = 2) :
    (firFrameWire im cf pc uc ic).length =
      4 + (37 + 5 * im.header.quality_records.length +
        (certBlock cf im.header.certification_records).length) +
      im.pixels.length := by
  have hql := flatten_map_length (g := qualWire) (k := 5)
    (l := im.header.quality_records) (fun q hqm => by
      simp [qualWire, List.length_append, (hq q hqm).2.1, (hq q hqm).2.2])
  simp [firFrameWire, List.length_append, u16be, u32be, htech, hvend, htyp, hql]
  ring

theorem orAll_lt {l : List Nat} {n : Nat} (h : ∀ x ∈ l, x < 2 ^ n) :
    List.foldl (· ||| ·) 0 l < 2 ^ n := by
  induction l with
  | nil => exact Nat.pos_pow_of_pos n (by omega)
  | cons x xs ih =>
    simp only [List.foldl]
    rw [foldl_lor_shift, Nat.zero_or]
    exact Nat.or_lt_two_pow (h x (List.mem_cons_self x xs))
      (ih (fun y hy => h y (List.mem_cons_of_mem x hy)))

theorem maskValue_lt (mask : List String) : maskValue mask < 2 ^ 11 := by
  unfold maskValue
  refine orAll_lt (fun x hx => ?_)
  obtain ⟨kv, hkv, hkvx⟩ := List.mem_map.mp hx
  have hkvt := List.mem_of_mem_filter hkv
  subst hkvx
  have hall : ∀ kv ∈ PROPERTY_FLAGS, kv.2 < 2 ^ 11 := by decide
  exact hall kv hkvt

theorem beVal_drop_u32be {n : Nat} (h : n < 16777216) :
    beVal ((u32be n).drop 1) = n := by
  simp only [u32be, beVal, List.drop, List.foldl]
  omega

/-- The decoded property-mask list recovers the encoded set when the set
lists table flags in table order. -/
theorem decodeMask_eq {mask : List String}
    (hsub : mask.Sublist (PROPERTY_FLAGS.map (fun kv => kv.1))) :
    (PROPERTY_FLAGS.filter
      (fun kv => decide (maskValue mask &&& kv.2 ≠ 0))).map (fun kv => kv.1) =
      mask := by
  have hnz : ∀ kv ∈ PROPERTY_FLAGS, kv.2 ≠ 0 := by decide
  have hcong : PROPERTY_FLAGS.filter
      (fun kv => decide (maskValue mask &&& kv.2 ≠ 0)) =
      PROPERTY_FLAGS.filter (fun kv => mask.contains kv.1) :=
    List.filter_congr (fun kv hkv => by
      rw [maskValue_and (k := kv.1) (v := kv.2) hkv]
      by_cases hm : mask.contains kv.1
      · simp [hm, hnz kv hkv]
      · simp only [hm, if_false]
        simp [hm])
  rw [hcong, map_fst_filter_key,
    filter_contains_of_sublist hsub (by decide)]

/-- The wire bytes of one landmark point. -/
def lmWire (p : FACLandmarkPoint) : List Byte :=
  [p.point_type] ++ [p.point_code] ++ u16be p.x ++ u16be p.y ++ u16be p.z

instance [DecidableEq ε] [DecidableEq α] : DecidableEq (Except ε α)
  | .error a, .error b =>
    if h : a = b then .isTrue (by rw [h])
    else .isFalse (fun hc => h (by cases hc; rfl))
  | .error _, .ok _ => .isFalse (fun hc => Except.noConfusion hc)
  | .ok _, .error _ => .isFalse (fun hc => Except.noConfusion hc)
  | .ok a, .ok b =>
    if h : a = b then .isTrue (by rw [h])
    else .isFalse (fun hc => h (by cases hc; rfl))

/-! ## C1 and C2: counterexamples -/

/-- C1 counterexample: the claim says the caller-supplied device_type and
quality are read back as supplied, but the face encoder writes two zero
bytes and a zero quality field regardless: round-tripping the fixture,
whose device_type is 0x1234, returns device_type 0x0000. -/
theorem claim_C1_counterexample :
    fixFACImage.header.device_type = some [18, 52] ∧
    ((facSaveFrame fixDT fixFACImage "010").bind
      (fun fb => (facReadHeader "010" fb).map (fun r => r.1.device_type)))
      = .ok [0, 0] := by
  exact ⟨rfl, by decide⟩

/-- A face image with an empty header dict (every key legal for any
version). -/
def fix030Image : FACImage := ⟨"RGB", 2, 2, [255, 216, 9], {}⟩

/-- C2 counterexample: the single-frame face writer for version 030 emits
the magic tag followed directly by the frame bytes: the file is the 4-byte
magic plus the frame (whose own length field covers the rest), and the
word at offset 8, where the 030 layout keeps the file-level total length,
does not equal prologue size plus the frame length. -/
theorem claim_C2_counterexample :
    ∃ out, facSave fixDT fix030Image "030" = .ok out ∧
      out.take 4 = [70, 65, 67, 0] ∧
      out.length = 4 + beVal ((out.drop 4).take 4) ∧
      getU32 out 8 ≠ 17 + beVal ((out.drop 4).take 4) := by
  exact ⟨_, rfl, by decide, by decide, by decide⟩

/-! ## The explicit wire form of a successful version-010 face-frame encode -/

/-- The explicit wire bytes of a version-010 face frame: length field,
facial-information block, landmark points, image-information block,
payload.  `gv ev hv ex fitv idtv csvc srcv` are the wire codes of the
enumerated fields. -/
def facFrameWire (im : FACImage) (gv ev hv : Nat) (ex : List Byte)
    (fitv idtv csvc srcv : Nat) : List Byte :=
  u32be (4 + (16 + 8 * (im.header.landmark_points.getD []).length + 12) +
    im.compressed.length) ++
  (([] : List Byte) ++
   (u16be (im.header.landmark_points.getD []).length ++ [gv] ++ [ev] ++ [hv] ++
    (u32be (maskValue (im.header.property_mask.getD []))).drop 1 ++ ex ++
    [(im.header.pose_yaw.getD 0 % 256).toNat] ++
    [(im.header.pose_pitch.getD 0 % 256).toNat] ++
    [(im.header.pose_roll.getD 0 % 256).toNat] ++
    [(im.header.pose_uncertainty_yaw.getD 0 % 256).toNat] ++
    [(im.header.pose_uncertainty_pitch.getD 0 % 256).toNat] ++
    [(im.header.pose_uncertainty_roll.getD 0 % 256).toNat]) ++
   ([] : List Byte) ++
   ((im.header.landmark_points.getD []).map lmWire).flatten ++
   ([fitv] ++ [idtv] ++ u16be im.width ++ u16be im.height ++ [csvc] ++ [srcv] ++
    [0, 0] ++ u16be 0)) ++
  im.compressed

/-- The version-010 face encoder writes a successful frame as the 4-byte
length field, the representation header, then the compressed payload, with
the device-type bytes and the quality field hard-coded to zero. -/
theorem facSaveFrame_eq010 {im : FACImage} {gv ev hv : Nat} {ex : List Byte}
    {fitv idtv srcv : Nat} {csv : Nat × Nat × String} (now : PyDatetime)
    (hleg : im.header.keys.filter (fun k =>
      !(((dictGet FACRepresentationHeaderInfo k).getD []).contains "010")) = [])
    (hidt : dictGet IMAGE_DATA_TYPE (im.header.image_data_type.getD "JPEG") =
      some idtv)
    (hnlm : (im.header.landmark_points.getD []).length < 65536)
    (hg : dictGet GENDER (im.header.gender.getD "X") = some gv)
    (he : dictGet EYE_COLOUR (im.header.eye_colour.getD "UNSPECIFIED") = some ev)
    (hhc : dictGet HAIR_COLOUR (im.header.hair_colour.getD "UNSPECIFIED") = some hv)
    (hex : dictGet EXPRESSION (im.header.expression.getD "UNSPECIFIED") = some ex)
    (hp1 : -128 ≤ im.header.pose_yaw.getD 0 ∧ im.header.pose_yaw.getD 0 < 128)
    (hp2 : -128 ≤ im.header.pose_pitch.getD 0 ∧ im.header.pose_pitch.getD 0 < 128)
    (hp3 : -128 ≤ im.header.pose_roll.getD 0 ∧ im.header.pose_roll.getD 0 < 128)
    (hp4 : -128 ≤ im.header.pose_uncertainty_yaw.getD 0 ∧
      im.header.pose_uncertainty_yaw.getD 0 < 128)
    (hp5 : -128 ≤ im.header.pose_uncertainty_pitch.getD 0 ∧
      im.header.pose_uncertainty_pitch.getD 0 < 128)
    (hp6 : -128 ≤ im.header.pose_uncertainty_roll.getD 0 ∧
      im.header.pose_uncertainty_roll.getD 0 < 128)
    (hlm : ∀ pt ∈ im.header.landmark_points.getD [], pt.point_type < 256 ∧
      pt.point_code < 256 ∧ pt.x < 65536 ∧ pt.y < 65536 ∧ pt.z < 65536)
    (hfit : dictGet FACE_IMAGE_TYPE (im.header.face_image_type.getD "BASIC") =
      some fitv)
    (hw : im.width < 65536) (hh2 : im.height < 65536)
    (hcs : (COLOUR_SPACE.filter (fun kv => im.mode == kv.2.2)).head? = some csv)
    (hsrc : dictGet SOURCE_TYPE (im.header.source_type.getD "UNSPECIFIED") =
      some srcv)
    (hfl : 4 + (16 + 8 * (im.header.landmark_points.getD []).length + 12) +
      im.compressed.length < 4294967296) :
    facSaveFrame now im "010" =
      .ok (facFrameWire im gv ev hv ex fitv idtv csv.1 srcv) := by
  have hexlen : ex.length = 2 := by
    have hall : ∀ kv ∈ EXPRESSION, kv.2.length = 2 := by decide
    exact hall _ (dictGet_mem hex)
  have hgv : gv < 256 := by
    have hall : ∀ kv ∈ GENDER, kv.2 < 256 := by decide
    exact hall _ (dictGet_mem hg)
  have hev : ev < 256 := by
    have hall : ∀ kv ∈ EYE_COLOUR, kv.2 < 256 := by decide
    exact hall _ (dictGet_mem he)
  have hhv : hv < 256 := by
    have hall : ∀ kv ∈ HAIR_COLOUR, kv.2 < 256 := by decide
    exact hall _ (dictGet_mem hhc)
  have hfitv : fitv < 256 := by
    have hall : ∀ kv ∈ FACE_IMAGE_TYPE, kv.2 < 256 := by decide
    exact hall _ (dictGet_mem hfit)
  have hidtv : idtv < 256 := by
    have hall : ∀ kv ∈ IMAGE_DATA_TYPE, kv.2 < 256 := by decide
    exact hall _ (dictGet_mem hidt)
  have hsrcv : srcv < 256 := by
    have hall : ∀ kv ∈ SOURCE_TYPE, kv.2 < 256 := by decide
    exact hall _ (dictGet_mem hsrc)
  have hcsm : csv ∈ COLOUR_SPACE :=
    List.mem_of_mem_filter (List.mem_of_mem_head? (Option.mem_def.mpr hcs))
  have hcsv : csv.1 < 256 := by
    have hall : ∀ kv ∈ COLOUR_SPACE, kv.1 < 256 := by decide
    exact hall _ hcsm
  have hior : im.header.image_data_type.getD "JPEG" = "JPEG" ∨
      im.header.image_data_type.getD "JPEG" = "JPEG2000" := by
    have hall : ∀ kv ∈ IMAGE_DATA_TYPE, kv.1 = "JPEG" ∨ kv.1 = "JPEG2000" := by
      decide
    exact hall _ (dictGet_mem hidt)
  have hmlt : maskValue (im.header.property_mask.getD []) < 4294967296 :=
    lt_trans (maskValue_lt _) (by norm_num)
  have hlmenc : packListM packLandmark (im.header.landmark_points.getD []) =
      .ok (((im.header.landmark_points.getD []).map lmWire).flatten) :=
    packListM_maps (g := lmWire) (fun pt hpt =>
      packLandmark_ok (hlm pt hpt).1 (hlm pt hpt).2.1 (hlm pt hpt).2.2.1
        (hlm pt hpt).2.2.2.1 (hlm pt hpt).2.2.2.2)
  have hchk : facCheckKeys im.header "010" = .ok () := by
    unfold facCheckKeys
    rw [hleg]
    rfl
  have himg : facImageData (im.header.image_data_type.getD "JPEG") im.compressed =
      .ok im.compressed := by
    unfold facImageData
    rw [if_pos hior]
    rfl
  have hdtb : facDtb now im.header "010" = .ok [] := by
    unfold facDtb
    rw [if_neg (show ¬("010" : String) = "030" by decide)]
    rfl
  have hqb : facQb im.header "010" = .ok [] := by
    unfold facQb
    rw [if_neg (show ¬("010" : String) = "030" by decide)]
    rfl
  have hcsel : facCsv im.mode = .ok csv.1 := by
    unfold facCsv
    rw [hcs]
    rfl
  have hfib : facFib im.header "010" = .ok
      (u16be (im.header.landmark_points.getD []).length ++ [gv] ++ [ev] ++ [hv] ++
       (u32be (maskValue (im.header.property_mask.getD []))).drop 1 ++ ex ++
       [(im.header.pose_yaw.getD 0 % 256).toNat] ++
       [(im.header.pose_pitch.getD 0 % 256).toNat] ++
       [(im.header.pose_roll.getD 0 % 256).toNat] ++
       [(im.header.pose_uncertainty_yaw.getD 0 % 256).toNat] ++
       [(im.header.pose_uncertainty_pitch.getD 0 % 256).toNat] ++
       [(im.header.pose_uncertainty_roll.getD 0 % 256).toNat]) := by
    unfold facFib
    rw [if_pos (show ("010" : String) = "010" from rfl)]
    simp only [pure_eq_ok, bind_ok, packU16_ok hnlm, pyGet, hg, he, hhc, hex,
      packU8_ok hgv, packU8_ok hev, packU8_ok hhv, packU32_ok hmlt,
      packI8_ok hp1.1 hp1.2, packI8_ok hp2.1 hp2.2, packI8_ok hp3.1 hp3.2,
      packI8_ok hp4.1 hp4.2, packI8_ok hp5.1 hp5.2, packI8_ok hp6.1 hp6.2,
      packBytes_exact hexlen]
  have hlml : (((im.header.landmark_points.getD []).map lmWire).flatten).length =
      8 * (im.header.landmark_points.getD []).length :=
    flatten_map_length (g := lmWire) (fun pt hpt => by simp [lmWire, u16be])
  have hrh : (([] : List Byte) ++
      (u16be (im.header.landmark_points.getD []).length ++ [gv] ++ [ev] ++ [hv] ++
       (u32be (maskValue (im.header.property_mask.getD []))).drop 1 ++ ex ++
       [(im.header.pose_yaw.getD 0 % 256).toNat] ++
       [(im.header.pose_pitch.getD 0 % 256).toNat] ++
       [(im.header.pose_roll.getD 0 % 256).toNat] ++
       [(im.header.pose_uncertainty_yaw.getD 0 % 256).toNat] ++
       [(im.header.pose_uncertainty_pitch.getD 0 % 256).toNat] ++
       [(im.header.pose_uncertainty_roll.getD 0 % 256).toNat]) ++
      ([] : List Byte) ++
      ((im.header.landmark_points.getD []).map lmWire).flatten ++
      ([fitv] ++ [idtv] ++ u16be im.width ++ u16be im.height ++ [csv.1] ++ [srcv] ++
       [0, 0] ++ u16be 0)).length =
      16 + 8 * (im.header.landmark_points.getD []).length + 12 := by
    simp [List.length_append, u16be, u32be, hexlen, hlml]
    ring
  unfold facSaveFrame
  simp only [hchk, himg, hdtb, hfib, hqb, hlmenc, pyGet, hfit, hidt, hsrc, hcsel,
    packU8_ok hfitv, packU8_ok hidtv, packU16_ok hw, packU16_ok hh2,
    packU8_ok hcsv, packU8_ok hsrcv, bind_ok, pure_eq_ok]
  rw [hrh, packU32_ok hfl, bind_ok]
  rw [facFrameWire]

/-- Reading back the wire form of a version-010 face frame: every
defaulted header field returns as encoded, except that device_type always
reads back as the two zero bytes and quality as zero. -/
theorem facReadHeader_eq010 {im : FACImage} {gv ev hv : Nat} {ex : List Byte}
    {fitv idtv srcv : Nat} {csv : Nat × Nat × String}
    (hidt : dictGet IMAGE_DATA_TYPE (im.header.image_data_type.getD "JPEG") =
      some idtv)
    (hnlm : (im.header.landmark_points.getD []).length < 65536)
    (hg : dictGet GENDER (im.header.gender.getD "X") = some gv)
    (he : dictGet EYE_COLOUR (im.header.eye_colour.getD "UNSPECIFIED") = some ev)
    (hhc : dictGet HAIR_COLOUR (im.header.hair_colour.getD "UNSPECIFIED") = some hv)
    (hex : dictGet EXPRESSION (im.header.expression.getD "UNSPECIFIED") = some ex)
    (hsub : (im.header.property_mask.getD []).Sublist
      (PROPERTY_FLAGS.map (fun kv => kv.1)))
    (hp1 : -128 ≤ im.header.pose_yaw.getD 0 ∧ im.header.pose_yaw.getD 0 < 128)
    (hp2 : -128 ≤ im.header.pose_pitch.getD 0 ∧ im.header.pose_pitch.getD 0 < 128)
    (hp3 : -128 ≤ im.header.pose_roll.getD 0 ∧ im.header.pose_roll.getD 0 < 128)
    (hp4 : -128 ≤ im.header.pose_uncertainty_yaw.getD 0 ∧
      im.header.pose_uncertainty_yaw.getD 0 < 128)
    (hp5 : -128 ≤ im.header.pose_uncertainty_pitch.getD 0 ∧
      im.header.pose_uncertainty_pitch.getD 0 < 128)
    (hp6 : -128 ≤ im.header.pose_uncertainty_roll.getD 0 ∧
      im.header.pose_uncertainty_roll.getD 0 < 128)
    (hlm : ∀ pt ∈ im.header.landmark_points.getD [], pt.point_type < 256 ∧
      pt.point_code < 256 ∧ pt.x < 65536 ∧ pt.y < 65536 ∧ pt.z < 65536)
    (hfit : dictGet FACE_IMAGE_TYPE (im.header.face_image_type.getD "BASIC") =
      some fitv)
    (hw : im.width < 65536) (hh2 : im.height < 65536)
    (hcs : (COLOUR_SPACE.filter (fun kv => im.mode == kv.2.2)).head? = some csv)
    (hsrc : dictGet SOURCE_TYPE (im.header.source_type.getD "UNSPECIFIED") =
      some srcv)
    {L : Nat} (hL : L < 4294967296) :
    facReadHeader "010" (u32be L ++
      (u16be (im.header.landmark_points.getD []).length ++
      ([gv] ++ ([ev] ++ ([hv] ++
      ((u32be (maskValue (im.header.property_mask.getD []))).drop 1 ++
      (ex ++
      ([(im.header.pose_yaw.getD 0 % 256).toNat] ++
      ([(im.header.pose_pitch.getD 0 % 256).toNat] ++
      ([(im.header.pose_roll.getD 0 % 256).toNat] ++
      ([(im.header.pose_uncertainty_yaw.getD 0 % 256).toNat] ++
      ([(im.header.pose_uncertainty_pitch.getD 0 % 256).toNat] ++
      ([(im.header.pose_uncertainty_roll.getD 0 % 256).toNat] ++
      (((im.header.landmark_points.getD []).map lmWire).flatten ++
      ([fitv] ++ ([idtv] ++ (u16be im.width ++ (u16be im.height ++
      ([csv.1] ++ ([srcv] ++ ([0, 0] ++ (u16be 0 ++
       im.compressed)))))))))))))))))))))) =
    .ok (⟨im.header.landmark_points.getD [],
      im.header.gender.getD "X", im.header.eye_colour.getD "UNSPECIFIED",
      im.header.hair_colour.getD "UNSPECIFIED",
      im.header.property_mask.getD [],
      im.header.expression.getD "UNSPECIFIED",
      im.header.pose_yaw.getD 0, im.header.pose_pitch.getD 0,
      im.header.pose_roll.getD 0, im.header.pose_uncertainty_yaw.getD 0,
      im.header.pose_uncertainty_pitch.getD 0,
      im.header.pose_uncertainty_roll.getD 0,
      im.header.face_image_type.getD "BASIC", im.header.image_data_type.getD "JPEG",
      im.header.source_type.getD "UNSPECIFIED", [0, 0], 0⟩,
      4 + 16 + 8 * (im.header.landmark_points.getD []).length + 12,
      ⟨L, im.width, im.height, csv.2.2, csv.2.1⟩) := by
  have hexlen : ex.length = 2 := by
    have hall : ∀ kv ∈ EXPRESSION, kv.2.length = 2 := by decide
    exact hall _ (dictGet_mem hex)
  have hcsm : csv ∈ COLOUR_SPACE :=
    List.mem_of_mem_filter (List.mem_of_mem_head? (Option.mem_def.mpr hcs))
  have hcsd : dictGet COLOUR_SPACE csv.1 = some csv.2 := by
    have hall : ∀ kv ∈ COLOUR_SPACE, dictGet COLOUR_SPACE kv.1 = some kv.2 := by
      decide
    exact hall _ hcsm
  have hgi : invGet GENDER gv = .ok (im.header.gender.getD "X") :=
    invGet_of_mem (by decide) (dictGet_mem hg)
  have hei : invGet EYE_COLOUR ev = .ok (im.header.eye_colour.getD "UNSPECIFIED") :=
    invGet_of_mem (by decide) (dictGet_mem he)
  have hhi : invGet HAIR_COLOUR hv =
      .ok (im.header.hair_colour.getD "UNSPECIFIED") :=
    invGet_of_mem (by decide) (dictGet_mem hhc)
  have hxi : invGet EXPRESSION ex =
      .ok (im.header.expression.getD "UNSPECIFIED") :=
    invGet_of_mem (by decide) (dictGet_mem hex)
  have hfi : invGet FACE_IMAGE_TYPE fitv =
      .ok (im.header.face_image_type.getD "BASIC") :=
    invGet_of_mem (by decide) (dictGet_mem hfit)
  have hii : invGet IMAGE_DATA_TYPE idtv =
      .ok (im.header.image_data_type.getD "JPEG") :=
    invGet_of_mem (by decide) (dictGet_mem hidt)
  have hsi : invGet SOURCE_TYPE srcv =
      .ok (im.header.source_type.getD "UNSPECIFIED") :=
    invGet_of_mem (by decide) (dictGet_mem hsrc)
  have hm3 : ((u32be (maskValue (im.header.property_mask.getD []))).drop 1).length
      = 3 := by simp [u32be]
  have hm24 : maskValue (im.header.property_mask.getD []) < 16777216 :=
    lt_trans (maskValue_lt _) (by norm_num)
  have hdev : ∀ rest : List Byte, rdTake 2 (0 :: 0 :: rest) = .ok ([0, 0], rest) :=
    fun rest => @rdTake_append 2 [0, 0] rest rfl
  unfold facReadHeader
  simp only [if_pos (show ("010" : String) = "010" from rfl),
    List.singleton_append, List.cons_append, List.nil_append,
    rdU32_append hL, bind_ok, rdU16_append hnlm, rdU8_cons,
    rdTake_append hm3, rdTake_append hexlen,
    rdI8_append hp1.1 hp1.2, rdI8_append hp2.1 hp2.2, rdI8_append hp3.1 hp3.2,
    rdI8_append hp4.1 hp4.2, rdI8_append hp5.1 hp5.2, rdI8_append hp6.1 hp6.2,
    rdList_encode (g := lmWire)
      (fun pt hpt rest2 => rdLandmark_encode (hlm pt hpt).2.2.1
        (hlm pt hpt).2.2.2.1 (hlm pt hpt).2.2.2.2 rest2),
    rdU16_append hw, rdU16_append hh2, hdev,
    rdU16_append (show (0 : Nat) < 65536 by omega),
    pyGet, hcsd, hgi, hei, hhi, hxi, hfi, hii, hsi,
    beVal_drop_u32be hm24, decodeMask_eq hsub]
  rfl

theorem firFrameWire_drop {im : FIRImage} {pc uc ic : Nat} (cf : Bool)
    (htech : im.header.capture_device_technology_id.length = 1)
    (hvend : im.header.capture_device_vendor_id.length = 2)
    (htyp : im.header.capture_device_type_id.length = 2)
    (hq : ∀ q ∈ im.header.quality_records, q.score < 256 ∧
      q.algo_vendor_id.length = 2 ∧ q.algo_id.length = 2)
    (hc : ∀ c ∈ im.header.certification_records, c.authority_id.length = 2 ∧
      c.scheme_id.length = 1) :
    (firFrameWire im cf pc uc ic).drop
      (19 + 5 * im.header.quality_records.length +
        (if cf then 1 + 3 * im.header.certification_records.length else 0) + 22) =
      im.pixels := by
  have hql := flatten_map_length (g := qualWire) (k := 5)
    (l := im.header.quality_records) (fun q hqm => by
      simp [qualWire, List.length_append, (hq q hqm).2.1, (hq q hqm).2.2])
  rw [firFrameWire]
  apply List.drop_left'
  cases cf <;>
    simp [List.length_append, u16be, u32be, htech, hvend, htyp, hql,
      certBlock_length _ hc] <;> ring

theorem facFrameWire_length {im : FACImage} {gv ev hv : Nat} {ex : List Byte}
    {fitv idtv csvc srcv : Nat} (hexlen : ex.length = 2) :
    (facFrameWire im gv ev hv ex fitv idtv csvc srcv).length =
      4 + (16 + 8 * (im.header.landmark_points.getD []).length + 12) +
        im.compressed.length := by
  have hlml : (((im.header.landmark_points.getD []).map lmWire).flatten).length =
      8 * (im.header.landmark_points.getD []).length :=
    flatten_map_length (g := lmWire) (fun pt hpt => by simp [lmWire, u16be])
  simp [facFrameWire, List.length_append, u16be, u32be, hexlen, hlml]
  ring

theorem facFrameWire_drop {im : FACImage} {gv ev hv : Nat} {ex : List Byte}
    {fitv idtv csvc srcv : Nat} (hexlen : ex.length = 2) :
    (facFrameWire im gv ev hv ex fitv idtv csvc srcv).drop
      (4 + 16 + 8 * (im.header.landmark_points.getD []).length + 12) =
      im.compressed := by
  have hlml : (((im.header.landmark_points.getD []).map lmWire).flatten).length =
      8 * (im.header.landmark_points.getD []).length :=
    flatten_map_length (g := lmWire) (fun pt hpt => by simp [lmWire, u16be])
  rw [facFrameWire]
  apply List.drop_left'
  simp [List.length_append, u16be, u32be, hexlen, hlml]
  ring

/-- C1 amended: the round trip holds with three deviations from the
claim.  For the finger family every supplied field reads back as supplied
and the payload returns unchanged, except that capture_datetime returns
with its microseconds truncated to millisecond precision and the length
field carries the computed frame length.  For the face family (version
010) every defaulted header field reads back as supplied and the payload
returns unchanged, except that device_type always reads back as the two
zero bytes and quality as zero, because the encoder hard-codes both. -/
theorem claim_C1_amended {im : FIRImage} {p u ity : String} {pc uc ic : Nat}
    (cf : Bool)
    (halgo : im.header.image_compression_algo = .str "RAW")
    (hdt : im.header.capture_datetime.valid = true)
    (htech : im.header.capture_device_technology_id.length = 1)
    (hvend : im.header.capture_device_vendor_id.length = 2)
    (htyp : im.header.capture_device_type_id.length = 2)
    (hqc : im.header.quality_records.length < 256)
    (hq : ∀ q ∈ im.header.quality_records, q.score < 256 ∧
      q.algo_vendor_id.length = 2 ∧ q.algo_id.length = 2)
    (hcc : im.header.certification_records.length < 256)
    (hc : ∀ c ∈ im.header.certification_records, c.authority_id.length = 2 ∧
      c.scheme_id.length = 1)
    (hcf : cf = false → im.header.certification_records = [])
    (hpos : im.header.position = .str p) (hpc : dictGet POSITION p = some pc)
    (hnum : im.header.number < 256)
    (hscale : im.header.scale_units = .str u) (huc : dictGet UNIT u = some uc)
    (himpr : im.header.impression_type = .str ity)
    (hic : dictGet IMPRESSION ity = some ic)
    (hr1 : im.header.horizontal_scan_sampling_rate < 65536)
    (hr2 : im.header.vertical_scan_sampling_rate < 65536)
    (hr3 : im.header.horizontal_image_sampling_rate < 65536)
    (hr4 : im.header.vertical_image_sampling_rate < 65536)
    (hw : im.width < 65536) (hh : im.height < 65536)
    (hdl : im.pixels.length < 4294967296)
    (hfl : 4 + (37 + 5 * im.header.quality_records.length +
      (certBlock cf im.header.certification_records).length) +
      im.pixels.length < 4294967296)
    {jm : FACImage} {gv ev hv : Nat} {ex : List Byte} {fitv idtv srcv : Nat}
    {csv : Nat × Nat × String} (now : PyDatetime)
    (jleg : jm.header.keys.filter (fun k =>
      !(((dictGet FACRepresentationHeaderInfo k).getD []).contains "010")) = [])
    (jidt : dictGet IMAGE_DATA_TYPE (jm.header.image_data_type.getD "JPEG") =
      some idtv)
    (jnlm : (jm.header.landmark_points.getD []).length < 65536)
    (jg : dictGet GENDER (jm.header.gender.getD "X") = some gv)
    (je : dictGet EYE_COLOUR (jm.header.eye_colour.getD "UNSPECIFIED") = some ev)
    (jhc : dictGet HAIR_COLOUR (jm.header.hair_colour.getD "UNSPECIFIED") = some hv)
    (jex : dictGet EXPRESSION (jm.header.expression.getD "UNSPECIFIED") = some ex)
    (jsub : (jm.header.property_mask.getD []).Sublist
      (PROPERTY_FLAGS.map (fun kv => kv.1)))
    (jp1 : -128 ≤ jm.header.pose_yaw.getD 0 ∧ jm.header.pose_yaw.getD 0 < 128)
    (jp2 : -128 ≤ jm.header.pose_pitch.getD 0 ∧ jm.header.pose_pitch.getD 0 < 128)
    (jp3 : -128 ≤ jm.header.pose_roll.getD 0 ∧ jm.header.pose_roll.getD 0 < 128)
    (jp4 : -128 ≤ jm.header.pose_uncertainty_yaw.getD 0 ∧
      jm.header.pose_uncertainty_yaw.getD 0 < 128)
    (jp5 : -128 ≤ jm.header.pose_uncertainty_pitch.getD 0 ∧
      jm.header.pose_uncertainty_pitch.getD 0 < 128)
    (jp6 : -128 ≤ jm.header.pose_uncertainty_roll.getD 0 ∧
      jm.header.pose_uncertainty_roll.getD 0 < 128)
    (jlm : ∀ pt ∈ jm.header.landmark_points.getD [], pt.point_type < 256 ∧
      pt.point_code < 256 ∧ pt.x < 65536 ∧ pt.y < 65536 ∧ pt.z < 65536)
    (jfit : dictGet FACE_IMAGE_TYPE (jm.header.face_image_type.getD "BASIC") =
      some fitv)
    (jw : jm.width < 65536) (jh : jm.height < 65536)
    (jcs : (COLOUR_SPACE.filter (fun kv => jm.mode == kv.2.2)).head? = some csv)
    (jsrc : dictGet SOURCE_TYPE (jm.header.source_type.getD "UNSPECIFIED") =
      some srcv)
    (jfl : 4 + (16 + 8 * (jm.header.landmark_points.getD []).length + 12) +
      jm.compressed.length < 4294967296) :
    (∃ fb nb, firSaveFrame im cf = .ok fb ∧
      firReadHeader cf fb = .ok
        ({ im.header with
            length := fb.length
            capture_datetime := dtTruncMs im.header.capture_datetime }, nb,
         ⟨fb.length, 8, im.width, im.height, im.pixels.length⟩) ∧
      fb.drop nb = im.pixels) ∧
    (∃ fb nb, facSaveFrame now jm "010" = .ok fb ∧
      facReadHeader "010" fb = .ok
        (⟨jm.header.landmark_points.getD [],
          jm.header.gender.getD "X", jm.header.eye_colour.getD "UNSPECIFIED",
          jm.header.hair_colour.getD "UNSPECIFIED",
          jm.header.property_mask.getD [],
          jm.header.expression.getD "UNSPECIFIED",
          jm.header.pose_yaw.getD 0, jm.header.pose_pitch.getD 0,
          jm.header.pose_roll.getD 0, jm.header.pose_uncertainty_yaw.getD 0,
          jm.header.pose_uncertainty_pitch.getD 0,
          jm.header.pose_uncertainty_roll.getD 0,
          jm.header.face_image_type.getD "BASIC",
          jm.header.image_data_type.getD "JPEG",
          jm.header.source_type.getD "UNSPECIFIED", [0, 0], 0⟩, nb,
         ⟨fb.length, jm.width, jm.height, csv.2.2, csv.2.1⟩) ∧
      fb.drop nb = jm.compressed) := by
  constructor
  · refine ⟨firFrameWire im cf pc uc ic,
      19 + 5 * im.header.quality_records.length +
        (if cf then 1 + 3 * im.header.certification_records.length else 0) + 22,
      firSaveFrame_eq cf halgo hdt htech hvend htyp hqc hq hcc hc hpos hpc hnum
        hscale huc himpr hic hr1 hr2 hr3 hr4 hw hh hdl hfl, ?_,
      firFrameWire_drop cf htech hvend htyp hq hc⟩
    have hread := firReadHeader_eq cf hdt htech
      hvend htyp hq hc hcf hpc huc hic hr1 hr2 hr3 hr4 hw hh hdl
      (L := 4 + (37 + 5 * im.header.quality_records.length +
        (certBlock cf im.header.certification_records).length) +
        im.pixels.length) hfl
    simp only [List.append_assoc] at hread
    rw [firFrameWire_length cf htech hvend htyp hq]
    rw [firFrameWire]
    simp only [List.append_assoc]
    rw [hread, hpos, hscale, halgo, himpr]
  · have jexlen : ex.length = 2 := by
      have hall : ∀ kv ∈ EXPRESSION, kv.2.length = 2 := by decide
      exact hall _ (dictGet_mem jex)
    refine ⟨facFrameWire jm gv ev hv ex fitv idtv csv.1 srcv,
      4 + 16 + 8 * (jm.header.landmark_points.getD []).length + 12,
      facSaveFrame_eq010 now jleg jidt jnlm jg je jhc jex jp1 jp2 jp3 jp4 jp5 jp6
        jlm jfit jw jh jcs jsrc jfl, ?_,
      facFrameWire_drop jexlen⟩
    have hread := facReadHeader_eq010 jidt jnlm jg je jhc jex jsub jp1 jp2 jp3
      jp4 jp5 jp6 jlm jfit jw jh jcs jsrc
      (L := 4 + (16 + 8 * (jm.header.landmark_points.getD []).length + 12) +
        jm.compressed.length) jfl
    simp only [List.append_assoc, List.nil_append] at hread
    rw [facFrameWire_length jexlen]
    rw [facFrameWire]
    simp only [List.append_assoc, List.nil_append]
    rw [hread]

theorem claim_C1_amended_witness :
    (∃ fb nb, firSaveFrame fixFIRImage false = .ok fb ∧
      firReadHeader false fb = .ok
        ({ fixFIRImage.header with
            length := fb.length
            capture_datetime := dtTruncMs fixFIRImage.header.capture_datetime },
         nb, ⟨fb.length, 8, fixFIRImage.width, fixFIRImage.height,
              fixFIRImage.pixels.length⟩) ∧
      fb.drop nb = fixFIRImage.pixels) ∧
    (∃ fb nb, facSaveFrame fixDT fixFACImage "010" = .ok fb ∧
      facReadHeader "010" fb = .ok
        (⟨fixFACImage.header.landmark_points.getD [],
          fixFACImage.header.gender.getD "X",
          fixFACImage.header.eye_colour.getD "UNSPECIFIED",
          fixFACImage.header.hair_colour.getD "UNSPECIFIED",
          fixFACImage.header.property_mask.getD [],
          fixFACImage.header.expression.getD "UNSPECIFIED",
          fixFACImage.header.pose_yaw.getD 0, fixFACImage.header.pose_pitch.getD 0,
          fixFACImage.header.pose_roll.getD 0,
          fixFACImage.header.pose_uncertainty_yaw.getD 0,
          fixFACImage.header.pose_uncertainty_pitch.getD 0,
          fixFACImage.header.pose_uncertainty_roll.getD 0,
          fixFACImage.header.face_image_type.getD "BASIC",
          fixFACImage.header.image_data_type.getD "JPEG",
          fixFACImage.header.source_type.getD "UNSPECIFIED", [0, 0], 0⟩, nb,
         ⟨fb.length, fixFACImage.width, fixFACImage.height, "RGB", 24⟩) ∧
      fb.drop nb = fixFACImage.compressed) :=
  @claim_C1_amended fixFIRImage "Left index finger" "PPI" "Live-scan rolled" 7 1 1
    false rfl rfl rfl rfl rfl (by decide) (by decide) (by decide) (by decide)
    (fun h => rfl) rfl rfl (by decide) rfl rfl rfl rfl (by decide) (by decide)
    (by decide) (by decide) (by decide) (by decide) (by decide) (by decide)
    fixFACImage 1 2 2 [0, 1] 1 0 2 (0, (24, "RGB")) fixDT
    rfl rfl (by decide) rfl rfl rfl rfl (by decide) (by decide) (by decide)
    (by decide) (by decide) (by decide) (by decide) (by decide) rfl (by decide)
    (by decide) rfl rfl (by decide)

/-! ## C2: length invariants of the writers -/

theorem take4_u32be (x : Nat) (r : List Byte) : (u32be x ++ r).take 4 = u32be x := by
  rw [show (4 : Nat) = (u32be x).length from rfl, List.take_left]

/-- Every successful finger frame starts with a 4-byte big-endian field
carrying the frame's own total byte count. -/
theorem firSaveFrame_shape {im : FIRImage} {cf : Bool} {fb : List Byte}
    (h : firSaveFrame im cf = .ok fb) : beVal (fb.take 4) = fb.length := by
  unfold firSaveFrame at h
  obtain ⟨p, -, h⟩ := bind_eq_ok h
  obtain ⟨bd, data⟩ := p
  obtain ⟨dtb, -, h⟩ := bind_eq_ok h
  obtain ⟨qlen, -, h⟩ := bind_eq_ok h
  obtain ⟨qb, -, h⟩ := bind_eq_ok h
  obtain ⟨certb, -, h⟩ := bind_eq_ok h
  obtain ⟨posv, -, h⟩ := bind_eq_ok h
  obtain ⟨scalev, -, h⟩ := bind_eq_ok h
  obtain ⟨compv, -, h⟩ := bind_eq_ok h
  obtain ⟨imprv, -, h⟩ := bind_eq_ok h
  obtain ⟨b1, -, h⟩ := bind_eq_ok h
  obtain ⟨b2, -, h⟩ := bind_eq_ok h
  obtain ⟨b3, -, h⟩ := bind_eq_ok h
  obtain ⟨b4, -, h⟩ := bind_eq_ok h
  obtain ⟨b5, -, h⟩ := bind_eq_ok h
  obtain ⟨b6, -, h⟩ := bind_eq_ok h
  obtain ⟨b7, -, h⟩ := bind_eq_ok h
  obtain ⟨b8, -, h⟩ := bind_eq_ok h
  obtain ⟨b9, -, h⟩ := bind_eq_ok h
  obtain ⟨b10, -, h⟩ := bind_eq_ok h
  obtain ⟨b11, -, h⟩ := bind_eq_ok h
  obtain ⟨b12, -, h⟩ := bind_eq_ok h
  obtain ⟨b13, -, h⟩ := bind_eq_ok h
  obtain ⟨lenb, hlen, h⟩ := bind_eq_ok h
  obtain ⟨hlb, hlt⟩ := packU32_ok_inv hlen
  subst hlb
  simp only [pure_eq_ok, Except.ok.injEq] at h
  subst h
  rw [List.append_assoc, take4_u32be, beVal_u32be hlt]
  simp [List.length_append, u32be]
  omega

/-- The common tail of both frame writers: packing the computed length
then prepending it yields a buffer whose leading field is its own size. -/
theorem packFinish_shape {rh data fb : List Byte}
    (h : (packU32 (4 + rh.length + data.length) >>= fun lenb =>
      pure (lenb ++ rh ++ data)) = .ok fb) : beVal (fb.take 4) = fb.length := by
  obtain ⟨lenb, hlen, h⟩ := bind_eq_ok h
  obtain ⟨hlb, hlt⟩ := packU32_ok_inv hlen
  subst hlb
  simp only [pure_eq_ok, Except.ok.injEq] at h
  subst h
  rw [List.append_assoc, take4_u32be, beVal_u32be hlt]
  simp [List.length_append, u32be]
  omega

/-- Every successful face frame (any version) starts with a 4-byte
big-endian field carrying the frame's own total byte count. -/
theorem facSaveFrame_shape {now : PyDatetime} {im : FACImage} {version : String}
    {fb : List Byte} (h : facSaveFrame now im version = .ok fb) :
    beVal (fb.take 4) = fb.length := by
  unfold facSaveFrame at h
  obtain ⟨u, -, h⟩ := bind_eq_ok h
  obtain ⟨data, -, h⟩ := bind_eq_ok h
  obtain ⟨dtb, -, h⟩ := bind_eq_ok h
  obtain ⟨fib, -, h⟩ := bind_eq_ok h
  obtain ⟨qb, -, h⟩ := bind_eq_ok h
  obtain ⟨lmb, -, h⟩ := bind_eq_ok h
  obtain ⟨fitv, -, h⟩ := bind_eq_ok h
  obtain ⟨fitb, -, h⟩ := bind_eq_ok h
  obtain ⟨idtv, -, h⟩ := bind_eq_ok h
  obtain ⟨idtb, -, h⟩ := bind_eq_ok h
  obtain ⟨wb, -, h⟩ := bind_eq_ok h
  obtain ⟨hb2, -, h⟩ := bind_eq_ok h
  obtain ⟨csv, -, h⟩ := bind_eq_ok h
  obtain ⟨csb, -, h⟩ := bind_eq_ok h
  obtain ⟨srcv, -, h⟩ := bind_eq_ok h
  obtain ⟨srcb, -, h⟩ := bind_eq_ok h
  exact packFinish_shape h

/-- The right projection of an elementwise relation between two lists. -/
theorem forall2_right {R : α → β → Prop} : ∀ {l : List α} {l2 : List β},
    List.Forall₂ R l l2 → ∀ b ∈ l2, ∃ a ∈ l, R a b := by
  intro l l2 hf
  induction hf with
  | nil => intro b hb; cases hb
  | cons hr hf2 ih =>
    intro b hb
    rcases List.mem_cons.mp hb with hb1 | hb2
    · exact ⟨_, List.mem_cons_self _ _, hb1 ▸ hr⟩
    · obtain ⟨a, ha, hr2⟩ := ih b hb2
      exact ⟨a, List.mem_cons_of_mem _ ha, hr2⟩

/-- A 200-by-300 single-channel raw finger image with no certification
records. -/
def fix200Image : FIRImage :=
  ⟨"L", 200, 300, List.replicate 60000 255, [], fixFIRHeader⟩

/-- The same image with one certification record attached. -/
def fix200cImage : FIRImage :=
  ⟨"L", 200, 300, List.replicate 60000 255, [],
   { fixFIRHeader with certification_records := [⟨[120, 171], [1]⟩] }⟩

/-- The fixture image saved as a single-frame finger container. -/
def fixFIRSingle : List Byte := (firSave fixFIRImage).toOption.getD []

/-- C2 amended: the length invariant holds for the finger writers and for
the face writer under version 010 (whose prologue is 14 bytes), not for
every supported face version as claimed: the version-030 single-frame face
writer emits no general header at all.  Whenever a single-frame finger
save succeeds, the file is 16 bytes of general header plus the frame, the
word at offset 8 carries that total, and the frame's leading field is its
own size; the multi-frame finger writer satisfies the same invariant over
the sum of the frame buffers; the version-010 single-frame face writer
satisfies it with the 14-byte prologue.  Concretely, the 200-by-300 raw
finger image encodes to 16 + 41 + 60000 bytes, and adding one
certification record adds exactly 4 bytes (1-byte count plus one 3-byte
record) and flips the certification flag byte at offset 14 from 0 to 1. -/
theorem claim_C2_amended :
    (∀ (im : FIRImage) (out : List Byte), firSave im = .ok out →
      ∃ fb, firSaveFrame im (!im.header.certification_records.isEmpty) = .ok fb ∧
        out.length = 16 + fb.length ∧ getU32 out 8 = 16 + fb.length ∧
        beVal (fb.take 4) = fb.length) ∧
    (∀ (ims : List FIRImage) (out : List Byte), firSaveAll ims = .ok out →
      ∃ bufs, mapFrames (fun im => firSaveFrame im
          (ims.any (fun im2 => !im2.header.certification_records.isEmpty))) ims =
          .ok bufs ∧
        out.length = 16 + (bufs.map List.length).sum ∧
        getU32 out 8 = 16 + (bufs.map List.length).sum ∧
        ∀ fb ∈ bufs, beVal (fb.take 4) = fb.length) ∧
    (∀ (now : PyDatetime) (jm : FACImage) (out : List Byte),
      facSave now jm "010" = .ok out →
      ∃ fb, facSaveFrame now jm "010" = .ok fb ∧
        out.length = 14 + fb.length ∧ getU32 out 8 = 14 + fb.length ∧
        beVal (fb.take 4) = fb.length) ∧
    (∃ out outc,
      firSave fix200Image = .ok out ∧ out.length = 16 + 41 + 200 * 300 ∧
      firSave fix200cImage = .ok outc ∧ outc.length = out.length + 4 ∧
      out.get? 14 = some 0 ∧ outc.get? 14 = some 1) := by
  refine ⟨?_, ?_, ?_, ?_⟩
  · intro im out h
    simp only [firSave] at h
    obtain ⟨fb, hfb, h⟩ := bind_eq_ok h
    obtain ⟨lenb, hlen, h⟩ := bind_eq_ok h
    obtain ⟨nbb, hnb, h⟩ := bind_eq_ok h
    obtain ⟨hlb, hlt⟩ := packU32_ok_inv hlen
    obtain ⟨hnbb, -⟩ := packU16_ok_inv hnb
    subst hlb hnbb
    simp only [pure_eq_ok, Except.ok.injEq] at h
    refine ⟨fb, hfb, ?_, ?_, firSaveFrame_shape hfb⟩
    · rw [← h]
      simp only [List.length_append, List.length_cons, List.length_nil,
        u32be_length, u16be_length, packBool]
    · rw [← h]
      have hassoc : ([70, 73, 82, 0] : List Byte) ++ [48, 50, 48, 0] ++
          u32be (16 + fb.length) ++ u16be 1 ++
          packBool (!im.header.certification_records.isEmpty) ++ [1] ++ fb =
          ([70, 73, 82, 0] ++ [48, 50, 48, 0]) ++
          (u32be (16 + fb.length) ++ (u16be 1 ++
            (packBool (!im.header.certification_records.isEmpty) ++
              ([1] ++ fb)))) := by
        simp [List.append_assoc]
      rw [hassoc]
      exact getU32_at (by simp) hlt
  · intro ims out h
    simp only [firSaveAll] at h
    obtain ⟨bufs, hbufs, h⟩ := bind_eq_ok h
    obtain ⟨lenb, hlen, h⟩ := bind_eq_ok h
    obtain ⟨nbb, hnb, h⟩ := bind_eq_ok h
    obtain ⟨npb, hnp, h⟩ := bind_eq_ok h
    obtain ⟨hlb, hlt⟩ := packU32_ok_inv hlen
    obtain ⟨hnbb, -⟩ := packU16_ok_inv hnb
    obtain ⟨hnpb, -⟩ := packU8_ok_inv hnp
    subst hlb hnbb hnpb
    simp only [pure_eq_ok, Except.ok.injEq] at h
    refine ⟨bufs, hbufs, ?_, ?_, ?_⟩
    · rw [← h]
      simp only [List.length_append, List.length_cons, List.length_nil,
        u32be_length, u16be_length, packBool, List.length_flatten]
    · rw [← h]
      have hassoc : ([70, 73, 82, 0] : List Byte) ++ [48, 50, 48, 0] ++
          u32be (16 + (bufs.map List.length).sum) ++ u16be bufs.length ++
          packBool (ims.any fun im => !im.header.certification_records.isEmpty) ++
          [((ims.map (fun im => im.header.position)).dedup).length] ++
          bufs.flatten =
          ([70, 73, 82, 0] ++ [48, 50, 48, 0]) ++
          (u32be (16 + (bufs.map List.length).sum) ++ (u16be bufs.length ++
            (packBool (ims.any fun im =>
                !im.header.certification_records.isEmpty) ++
              ([((ims.map (fun im => im.header.position)).dedup).length] ++
                bufs.flatten)))) := by
        simp [List.append_assoc]
      rw [hassoc]
      exact getU32_at (by simp) hlt
    · intro fb hfbmem
      obtain ⟨im2, -, hfr⟩ := forall2_right (mapFrames_forall2 hbufs) fb hfbmem
      exact firSaveFrame_shape hfr
  · intro now jm out h
    simp only [facSave] at h
    obtain ⟨fb, hfb, h⟩ := bind_eq_ok h
    simp only [if_true] at h
    obtain ⟨lenb, hlen, h⟩ := bind_eq_ok h
    obtain ⟨nbb, hnb, h⟩ := bind_eq_ok h
    obtain ⟨hlb, hlt⟩ := packU32_ok_inv hlen
    obtain ⟨hnbb, -⟩ := packU16_ok_inv hnb
    subst hlb hnbb
    simp only [pure_eq_ok, Except.ok.injEq] at h
    refine ⟨fb, hfb, ?_, ?_, facSaveFrame_shape hfb⟩
    · rw [← h]
      simp only [List.length_append, List.length_cons, List.length_nil,
        u32be_length, u16be_length]
    · rw [← h]
      have hassoc : ([70, 65, 67, 0] : List Byte) ++ [48, 49, 48, 0] ++
          u32be (14 + fb.length) ++ u16be 1 ++ fb =
          ([70, 65, 67, 0] ++ [48, 49, 48, 0]) ++
          (u32be (14 + fb.length) ++ (u16be 1 ++ fb)) := by
        simp [List.append_assoc]
      rw [hassoc]
      exact getU32_at (by simp) hlt
  · have hplen : fix200Image.pixels.length = 60000 := by
      rw [show fix200Image.pixels = List.replicate 60000 255 from rfl,
        List.length_replicate]
    have hplenc : fix200cImage.pixels.length = 60000 := by
      rw [show fix200cImage.pixels = List.replicate 60000 255 from rfl,
        List.length_replicate]
    have hq0 : fix200Image.header.quality_records.length = 0 := rfl
    have hq0c : fix200cImage.header.quality_records.length = 0 := rfl
    have hc0 : (certBlock false fix200Image.header.certification_records).length =
        0 := rfl
    have hc4 : (certBlock true fix200cImage.header.certification_records).length =
        4 := rfl
    have hsA : firSaveFrame fix200Image false =
        .ok (firFrameWire fix200Image false 7 1 1) :=
      @firSaveFrame_eq fix200Image "Left index finger" "PPI" "Live-scan rolled"
        7 1 1 false rfl rfl rfl rfl rfl (by decide) (by decide) (by decide)
        (by decide) rfl rfl (by decide) rfl rfl rfl rfl (by decide) (by decide)
        (by decide) (by decide) (by decide) (by decide)
        (by rw [hplen]; omega)
        (by simp only [hq0, hc0, hplen]; omega)
    have hsB : firSaveFrame fix200cImage true =
        .ok (firFrameWire fix200cImage true 7 1 1) :=
      @firSaveFrame_eq fix200cImage "Left index finger" "PPI" "Live-scan rolled"
        7 1 1 true rfl rfl rfl rfl rfl (by decide) (by decide) (by decide)
        (by decide) rfl rfl (by decide) rfl rfl rfl rfl (by decide) (by decide)
        (by decide) (by decide) (by decide) (by decide)
        (by rw [hplenc]; omega)
        (by simp only [hq0c, hc4, hplenc]; omega)
    have hlenA : (firFrameWire fix200Image false 7 1 1).length = 60041 := by
      rw [@firFrameWire_length fix200Image 7 1 1 false rfl rfl rfl (by decide)]
      simp only [hq0, hc0, hplen]
    have hlenB : (firFrameWire fix200cImage true 7 1 1).length = 60045 := by
      rw [@firFrameWire_length fix200cImage 7 1 1 true rfl rfl rfl (by decide)]
      simp only [hq0c, hc4, hplenc]
    have houtA : firSave fix200Image =
        .ok ([70, 73, 82, 0] ++ [48, 50, 48, 0] ++ u32be (16 + 60041) ++
          u16be 1 ++ packBool false ++ [1] ++
          firFrameWire fix200Image false 7 1 1) := by
      simp only [firSave]
      rw [show (!fix200Image.header.certification_records.isEmpty) = false
        from rfl]
      rw [hsA, bind_ok, hlenA, packU32_ok (by omega), bind_ok,
        packU16_ok (by omega), bind_ok]
      rfl
    have houtB : firSave fix200cImage =
        .ok ([70, 73, 82, 0] ++ [48, 50, 48, 0] ++ u32be (16 + 60045) ++
          u16be 1 ++ packBool true ++ [1] ++
          firFrameWire fix200cImage true 7 1 1) := by
      simp only [firSave]
      rw [show (!fix200cImage.header.certification_records.isEmpty) = true
        from rfl]
      rw [hsB, bind_ok, hlenB, packU32_ok (by omega), bind_ok,
        packU16_ok (by omega), bind_ok]
      rfl
    refine ⟨_, _, houtA, ?_, houtB, ?_, ?_, ?_⟩
    · simp only [List.length_append, List.length_cons, List.length_nil,
        u32be_length, u16be_length, packBool, hlenA]
    · simp only [List.length_append, List.length_cons, List.length_nil,
        u32be_length, u16be_length, packBool, hlenA, hlenB]
    · have hre : ([70, 73, 82, 0] : List Byte) ++ [48, 50, 48, 0] ++
          u32be (16 + 60041) ++ u16be 1 ++ packBool false ++ [1] ++
          firFrameWire fix200Image false 7 1 1 =
          ([70, 73, 82, 0] ++ [48, 50, 48, 0] ++ u32be (16 + 60041) ++
            u16be 1) ++
          ((0 : Byte) :: ([1] ++ firFrameWire fix200Image false 7 1 1)) := by
        simp [packBool, List.append_assoc]
      rw [hre]
      exact get?_at (by simp [u32be, u16be])
    · have hre : ([70, 73, 82, 0] : List Byte) ++ [48, 50, 48, 0] ++
          u32be (16 + 60045) ++ u16be 1 ++ packBool true ++ [1] ++
          firFrameWire fix200cImage true 7 1 1 =
          ([70, 73, 82, 0] ++ [48, 50, 48, 0] ++ u32be (16 + 60045) ++
            u16be 1) ++
          ((1 : Byte) :: ([1] ++ firFrameWire fix200cImage true 7 1 1)) := by
        simp [packBool, List.append_assoc]
      rw [hre]
      exact get?_at (by simp [u32be, u16be])

theorem claim_C2_amended_witness :
    ∃ fb, firSaveFrame fixFIRImage
        (!fixFIRImage.header.certification_records.isEmpty) = .ok fb ∧
      fixFIRSingle.length = 16 + fb.length ∧
      getU32 fixFIRSingle 8 = 16 + fb.length ∧
      beVal (fb.take 4) = fb.length :=
  claim_C2_amended.1 fixFIRImage fixFIRSingle rfl

/-! ## C9: the navigator saves and serves the mutable header cell -/

theorem bind_okE {ε : Type} (a : α) (f : α → Except ε β) :
    (Except.ok a >>= f) = f a := rfl

theorem pure_eq_okE {ε : Type} (a : α) : (pure a : Except ε α) = .ok a := rfl

theorem get?_set_same {α : Type} (l : List α) (a : α) (i : Nat)
    (h : i < l.length) : (l.set i a).get? i = some a := by
  rw [List.get?_eq_getElem?, List.getElem?_set_self]
  simp [h]

theorem get?_set_other {α : Type} (l : List α) (a : α) {i j : Nat} (h : i ≠ j) :
    (l.set i a).get? j = l.get? j := by
  rw [List.get?_eq_getElem?, List.get?_eq_getElem?, List.getElem?_set_ne h]

/-- One move of the finger navigator between two already-resolved frames:
the current header cell is written back into the cache at the old index,
the walk loop does not run, the target header is re-read from the stream,
and the cached entry (not the re-read one) is served. -/
theorem firSeekRaw_resolved {ctx : FIRCtx} {fp : List Nat}
    {rhs : List FIRRepresentationHeader} {i j nxt : Nat}
    {h1 cj rhj : FIRRepresentationHeader} {posj nbj : Nat} {nsj : FIRNs}
    {tj : String × Nat} {mo : String} {sz : Nat × Nat}
    {tl : Option (String × Nat)}
    (hilen : i < rhs.length)
    (hjfp : j < fp.length)
    (hjpos : fp.get? j = some posj)
    (hrdj : firReadHeader ctx.certFlag (ctx.file.drop posj) = .ok (rhj, nbj, nsj))
    (hcj : (rhs.set i h1).get? j = some cj)
    (htj : firSelectTile ctx rhj posj nbj = .ok tj) :
    firSeekRaw ctx ⟨fp, rhs, (i : Int), nxt, some h1, mo, sz, tl⟩ j =
      .ok ⟨fp, rhs.set i h1, (j : Int), posj + cj.length, some cj,
        (if nsj.bit_depth = 8 then "L" else mo),
        (nsj.horizontal_line_length, nsj.vertical_line_length), some tj⟩ := by
  unfold firSeekRaw
  rw [dif_pos ⟨Int.natCast_nonneg i, rfl⟩,
    if_pos (show Int.toNat (i : Int) < rhs.length from by simpa using hilen)]
  simp only [pure_eq_okE, bind_okE, Int.toNat_natCast, Option.get_some]
  have hloop : firSeekLoop ctx j (j + 1)
      ⟨fp, rhs.set i h1, (i : Int), nxt, some h1, mo, sz, tl⟩ =
      .ok ⟨fp, rhs.set i h1, (i : Int), nxt, some h1, mo, sz, tl⟩ := by
    rw [firSeekLoop]
    rw [if_neg (by simpa using Nat.not_le.mpr hjfp)]
  rw [hloop]
  simp only [bind_okE, hjpos, hrdj, hcj, htj]

/-- C9: on a container whose offsets are already resolved, leaving frame i
with a (possibly caller-mutated) current header h1 writes h1 into the
header cache at index i; the move to frame j serves frame j's cached
header even though the stream is re-read; moving back to frame i serves
exactly h1, not the header re-decoded from the stream; and the cached
headers of every other frame are untouched by both moves. -/
theorem claim_C9 {ctx : FIRCtx} {fp : List Nat}
    {rhs : List FIRRepresentationHeader} {i j nxt : Nat}
    {h1 cj rhj rhi : FIRRepresentationHeader}
    {posj posi nbj nbi : Nat} {nsj nsi : FIRNs} {tj ti : String × Nat}
    {mo : String} {sz : Nat × Nat} {tl : Option (String × Nat)}
    (hilen : i < rhs.length) (hjfp : j < fp.length)
    (hjpos : fp.get? j = some posj)
    (hrdj : firReadHeader ctx.certFlag (ctx.file.drop posj) = .ok (rhj, nbj, nsj))
    (htj : firSelectTile ctx rhj posj nbj = .ok tj)
    (hji : j ≠ i) (hjrh : j < rhs.length) (hifp : i < fp.length)
    (hipos : fp.get? i = some posi)
    (hrdi : firReadHeader ctx.certFlag (ctx.file.drop posi) = .ok (rhi, nbi, nsi))
    (hti : firSelectTile ctx rhi posi nbi = .ok ti)
    (hcj : rhs.get? j = some cj) :
    ∃ s1, firSeekRaw ctx ⟨fp, rhs, (i : Int), nxt, some h1, mo, sz, tl⟩ j =
        .ok s1 ∧
      s1.rheaders = rhs.set i h1 ∧
      s1.frame = (j : Int) ∧ s1.header = some cj ∧
      (∀ k, k ≠ i → s1.rheaders.get? k = rhs.get? k) ∧
      ∃ s2, firSeekRaw ctx s1 i = .ok s2 ∧
        s2.header = some h1 ∧ s2.rheaders.get? i = some h1 ∧
        (∀ k, k ≠ i → k ≠ j → s2.rheaders.get? k = rhs.get? k) := by
  have hcj1 : (rhs.set i h1).get? j = some cj := by
    rw [get?_set_other _ _ (fun he => hji he.symm)]
    exact hcj
  have hleg1 := @firSeekRaw_resolved ctx fp rhs i j nxt h1 cj rhj posj nbj nsj
    tj mo sz tl hilen hjfp hjpos hrdj hcj1 htj
  refine ⟨_, hleg1, rfl, rfl, rfl, ?_, ?_⟩
  · intro k hk
    exact get?_set_other _ _ (fun he => hk he.symm)
  · have hcget : ((rhs.set i h1).set j cj).get? i = some h1 := by
      rw [get?_set_other _ _ hji]
      exact get?_set_same _ _ _ hilen
    have hleg2 := @firSeekRaw_resolved ctx fp (rhs.set i h1) j i
      (posj + cj.length) cj h1 rhi posi nbi nsi ti
      (if nsj.bit_depth = 8 then "L" else mo)
      (nsj.horizontal_line_length, nsj.vertical_line_length) (some tj)
      (by simpa using hjrh) hifp hipos hrdi hcget hti
    refine ⟨_, hleg2, rfl, ?_, ?_⟩
    · rw [get?_set_other _ _ hji]
      exact get?_set_same _ _ _ hilen
    · intro k hki hkj
      rw [get?_set_other _ _ (fun he => hkj he.symm),
        get?_set_other _ _ (fun he => hki he.symm)]

/-- The fixture header after an in-place caller mutation of the finger
number. -/
def fixMutHeader : FIRRepresentationHeader := { fixFIRHeader with number := 9 }

/-- The decode of the two-frame fixture container at frame 1's offset. -/
def fixDec1 : FIRRepresentationHeader × Nat × FIRNs :=
  match firReadHeader false (fixAllFile.drop 61) with
  | .ok x => x
  | .error _ => (fixFIRHeader, 0, ⟨0, 0, 0, 0, 0⟩)

/-- The decode of the two-frame fixture container at frame 0's offset. -/
def fixDec0 : FIRRepresentationHeader × Nat × FIRNs :=
  match firReadHeader false (fixAllFile.drop 16) with
  | .ok x => x
  | .error _ => (fixFIRHeader, 0, ⟨0, 0, 0, 0, 0⟩)

theorem claim_C9_witness :
    ∃ s1, firSeekRaw ⟨fixAllFile, false, 2⟩
        ⟨[16, 61], [fixFIRHeader, fixFIRHeader], (0 : Int), 106,
         some fixMutHeader, "L", (2, 2), some ("raw", 61)⟩ 1 = .ok s1 ∧
      s1.rheaders = [fixFIRHeader, fixFIRHeader].set 0 fixMutHeader ∧
      s1.frame = (1 : Int) ∧ s1.header = some fixFIRHeader ∧
      (∀ k, k ≠ 0 →
        s1.rheaders.get? k = [fixFIRHeader, fixFIRHeader].get? k) ∧
      ∃ s2, firSeekRaw ⟨fixAllFile, false, 2⟩ s1 0 = .ok s2 ∧
        s2.header = some fixMutHeader ∧
        s2.rheaders.get? 0 = some fixMutHeader ∧
        (∀ k, k ≠ 0 → k ≠ 1 →
          s2.rheaders.get? k = [fixFIRHeader, fixFIRHeader].get? k) :=
  @claim_C9 ⟨fixAllFile, false, 2⟩ [16, 61] [fixFIRHeader, fixFIRHeader] 0 1 106
    fixMutHeader fixFIRHeader fixDec1.1 fixDec0.1 61 16 fixDec1.2.1 fixDec0.2.1
    fixDec1.2.2 fixDec0.2.2 ("raw", 61 + fixDec1.2.1) ("raw", 16 + fixDec0.2.1)
    "L" (2, 2) (some ("raw", 61))
    (by decide) (by decide) rfl rfl rfl (by decide) (by decide) (by decide)
    rfl rfl rfl rfl

end ISO19794
